import Mathlib

/-!
Shallow embedding of the CloudMouse runtime core
(`src/lib/hardware/EncoderManager.cpp`, `src/lib/core/Core.cpp`,
`src/lib/utils/DeviceID.h`) together with theorems settling the frozen
claims about its natural-language specification.

Modelling conventions:
* One call to `EncoderManager::update()` is one `update` step.  The
  hardware reads (`digitalRead(ENCODER_SW_PIN)`, `encoder.position()`,
  `millis()`) performed during one tick are modelled as a single sampled
  `EncoderInput` per tick: `level` is the sampled button level
  (`LOW` = pressed, `HIGH` = released, matching the Arduino constants),
  `pos` is the raw PCNT counter and `time` the millisecond clock.
* `unsigned long` millisecond clocks are modelled as `Nat`; the monotone
  clock guarantees of `millis()` appear as explicit hypotheses where a
  theorem needs them, and the `currentTime - pressStartTime` subtractions
  never underflow under those hypotheses, so `Nat` subtraction coincides
  with the C unsigned subtraction.
* The thresholds `CLICK_TIMEOUT`, `LONG_PRESS_DURATION`,
  `ULTRA_LONG_PRESS_DURATION`, `DOUBLE_CLICK_WINDOW` live in the header
  `EncoderManager.h`, which is not part of the given sources; the spec
  describes them as fixed constants configurable at construction with
  `T_click < T_long <= T_ultra`, so they are carried as an explicit
  `EncoderConfig` parameter, ordered by hypotheses where needed.
* In addition to the source fields, `EMState` carries ghost counters
  (`clickRaises`, `doubleClickRaises`, `longPressRaises`,
  `ultraLongPressRaises`, `pressAndRotateRaises`), incremented exactly at
  the source locations that set the corresponding pending flag.  They let
  theorems count how often an event was raised, which a single `Bool`
  flag cannot record; they influence nothing else.
* Logging, LED, buzzer and other fire-and-forget collaborator calls are
  omitted (opaque collaborators per the spec); observable collaborator
  interactions needed by the claims are recorded in explicit outputs.
-/

/-- Arduino LOW level: the encoder button reads LOW while pressed. -/
abbrev LOW : Bool := false

/-- Arduino HIGH level: the encoder button reads HIGH while released. -/
abbrev HIGH : Bool := true

/-- Timing thresholds of `EncoderManager` (declared in the missing header
`EncoderManager.h`; the `.cpp` comments document 500/1000/3000 ms). -/
structure EncoderConfig where
  clickTimeout : Nat
  longPressDuration : Nat
  ultraLongPressDuration : Nat
  doubleClickWindow : Nat
  deriving Repr, DecidableEq

/-- The mutable fields of `EncoderManager`, plus ghost raise counters. -/
structure EMState where
  lastValue : Int
  movement : Int
  movementPending : Bool
  lastButtonState : Bool
  pressStartTime : Nat
  lastPressDuration : Nat
  pressAndRotateActive : Bool
  waitingForDoubleClick : Bool
  lastClickTime : Nat
  clickPending : Bool
  doubleClickPending : Bool
  longPressPending : Bool
  ultraLongPressPending : Bool
  pressAndRotatePending : Bool
  longPressBuzzed : Bool
  ultraLongPressNotified : Bool
  clickRaises : Nat := 0
  doubleClickRaises : Nat := 0
  longPressRaises : Nat := 0
  ultraLongPressRaises : Nat := 0
  pressAndRotateRaises : Nat := 0
  deriving Repr, DecidableEq

/-- The hardware samples one `EncoderManager::update()` tick observes. -/
structure EncoderInput where
  pos : Int
  level : Bool
  time : Nat
  deriving Repr, DecidableEq

/-- State after `EncoderManager::init()` with the encoder at position 0 and
the button released (all flags cleared, as the field initializers do). -/
def initState : EMState :=
  { lastValue := 0, movement := 0, movementPending := false,
    lastButtonState := HIGH, pressStartTime := 0, lastPressDuration := 0,
    pressAndRotateActive := false, waitingForDoubleClick := false,
    lastClickTime := 0, clickPending := false, doubleClickPending := false,
    longPressPending := false, ultraLongPressPending := false,
    pressAndRotatePending := false, longPressBuzzed := false,
    ultraLongPressNotified := false }

/-- `EncoderManager::processEncoder`: normalize the counter to detents
(4 edges per detent), accumulate any delta, and promote the cycle to a
press-and-rotate gesture on the first delta seen while the button is held
(`isButtonDown()` is the live level read) with no gesture active yet. -/
def processEncoder (s : EMState) (i : EncoderInput) : EMState :=
  let newValue := i.pos.tdiv 4
  if newValue ≠ s.lastValue then
    let s1 := { s with movement := s.movement + (newValue - s.lastValue),
                       lastValue := newValue, movementPending := true }
    if i.level = LOW ∧ s1.pressAndRotateActive = false then
      { s1 with pressAndRotatePending := true, pressAndRotateActive := true,
                clickPending := false, longPressPending := false,
                ultraLongPressPending := false, waitingForDoubleClick := false,
                longPressBuzzed := false, ultraLongPressNotified := false,
                pressAndRotateRaises := s1.pressAndRotateRaises + 1 }
    else s1
  else s

/-- Falling-edge (press) block of `EncoderManager::processButton`. -/
def pressEdgeStep (s : EMState) (i : EncoderInput) : EMState :=
  if i.level ≠ s.lastButtonState ∧ i.level = LOW then
    { s with pressStartTime := i.time, longPressBuzzed := false,
             ultraLongPressNotified := false, pressAndRotateActive := false }
  else s

/-- Release classification of `EncoderManager::processButton`: press-and-
rotate releases are discarded, otherwise the duration is classified as
ultra-long press, long press, or (double-)click in that precedence. -/
def classifyRelease (c : EncoderConfig) (s : EMState) (d : Nat) (t : Nat) :
    EMState :=
  if s.pressAndRotateActive = true then
    { s with pressAndRotateActive := false }
  else if c.ultraLongPressDuration ≤ d then
    if s.ultraLongPressNotified = false then
      { s with ultraLongPressPending := true, ultraLongPressNotified := true,
               ultraLongPressRaises := s.ultraLongPressRaises + 1 }
    else s
  else if c.longPressDuration ≤ d then
    { s with longPressPending := true, longPressRaises := s.longPressRaises + 1 }
  else if d < c.clickTimeout then
    if s.waitingForDoubleClick = true then
      { s with doubleClickPending := true, waitingForDoubleClick := false,
               clickPending := false,
               doubleClickRaises := s.doubleClickRaises + 1 }
    else
      { s with waitingForDoubleClick := true, lastClickTime := t }
  else s

/-- Rising-edge (release) block of `EncoderManager::processButton`. -/
def releaseEdgeStep (c : EncoderConfig) (s : EMState) (i : EncoderInput) :
    EMState :=
  if i.level ≠ s.lastButtonState ∧ i.level = HIGH then
    classifyRelease c { s with lastPressDuration := i.time - s.pressStartTime }
      (i.time - s.pressStartTime) i.time
  else s

/-- Ongoing-press feedback block of `EncoderManager::processButton`: while
held without press-and-rotate, announce the long-press threshold and raise
ultra-long press immediately at its threshold; otherwise clear a stale
ultra-long-press announcement. -/
def ongoingPressStep (c : EncoderConfig) (s : EMState) (i : EncoderInput) :
    EMState :=
  if i.level = LOW ∧ s.pressAndRotateActive = false then
    let pt := i.time - s.pressStartTime
    let s1 := if c.longPressDuration ≤ pt ∧ s.longPressBuzzed = false then
        { s with longPressBuzzed := true }
      else s
    if c.ultraLongPressDuration ≤ pt ∧ s1.ultraLongPressNotified = false then
      { s1 with ultraLongPressPending := true, ultraLongPressNotified := true,
                ultraLongPressRaises := s1.ultraLongPressRaises + 1 }
    else s1
  else
    if s.ultraLongPressNotified = true ∧
        s.lastPressDuration < c.ultraLongPressDuration then
      { s with ultraLongPressNotified := false }
    else s

/-- Double-click pairing-timeout block of `EncoderManager::processButton`. -/
def doubleClickTimeoutStep (c : EncoderConfig) (s : EMState)
    (i : EncoderInput) : EMState :=
  if s.waitingForDoubleClick = true ∧
      c.doubleClickWindow < i.time - s.lastClickTime then
    { s with clickPending := true, waitingForDoubleClick := false,
             clickRaises := s.clickRaises + 1 }
  else s

/-- `EncoderManager::processButton`, composed exactly in source order;
the sampled level becomes `lastButtonState` at the end. -/
def processButton (c : EncoderConfig) (s : EMState) (i : EncoderInput) :
    EMState :=
  { doubleClickTimeoutStep c
      (ongoingPressStep c (releaseEdgeStep c (pressEdgeStep s i) i) i) i
    with lastButtonState := i.level }

/-- `EncoderManager::update()`: `processEncoder(); processButton();`. -/
def update (c : EncoderConfig) (s : EMState) (i : EncoderInput) : EMState :=
  processButton c (processEncoder s i) i

/-- Run `update` over a sequence of sampled ticks. -/
def run (c : EncoderConfig) (s : EMState) (l : List EncoderInput) : EMState :=
  l.foldl (update c) s

/-- `EncoderManager::getMovement`: blocked (returning 0, consuming nothing)
while the button is down or a press-and-rotate gesture is active, otherwise
consumes and clears the accumulated delta. -/
def getMovement (s : EMState) (level : Bool) : Int × EMState :=
  if level = LOW ∨ s.pressAndRotateActive = true then (0, s)
  else if s.movementPending = true then
    (s.movement, { s with movement := 0, movementPending := false })
  else (0, s)

/-- `EncoderManager::getClicked`. -/
def getClicked (s : EMState) : Bool × EMState :=
  if s.clickPending = true then (true, { s with clickPending := false })
  else (false, s)

/-- `EncoderManager::getLongPressed`. -/
def getLongPressed (s : EMState) : Bool × EMState :=
  if s.longPressPending = true then (true, { s with longPressPending := false })
  else (false, s)

/-- `EncoderManager::getUltraLongPressed`. -/
def getUltraLongPressed (s : EMState) : Bool × EMState :=
  if s.ultraLongPressPending = true then
    (true, { s with ultraLongPressPending := false })
  else (false, s)

/-- `EncoderManager::getDoubleClicked`. -/
def getDoubleClicked (s : EMState) : Bool × EMState :=
  if s.doubleClickPending = true then
    (true, { s with doubleClickPending := false })
  else (false, s)

/-- `EncoderManager::getPressAndRotate`. -/
def getPressAndRotate (s : EMState) : Bool × EMState :=
  if s.pressAndRotatePending = true then
    (true, { s with pressAndRotatePending := false })
  else (false, s)

/-- `EncoderManager::getPressAndRotateMovement`. -/
def getPressAndRotateMovement (s : EMState) : Int × EMState :=
  if s.pressAndRotateActive = true ∧ s.movementPending = true then
    (s.movement, { s with movement := 0, movementPending := false })
  else (0, s)

/-- `EncoderManager::getPressTime` via `getCurrentPressTime`: elapsed hold
time from the live level and clock, 0 when not pressed. -/
def getPressTime (s : EMState) (level : Bool) (now : Nat) : Nat :=
  if level = LOW then now - s.pressStartTime else 0

/-- `EncoderManager::resetLastPressDuration`. -/
def resetLastPressDuration (s : EMState) : Bool × EMState :=
  if 0 < s.lastPressDuration then (true, { s with lastPressDuration := 0 })
  else (false, s)

/-- Number of true flags among the five mutually-exclusive gesture
pendings (the set named by claim C1). -/
def pendingCount (s : EMState) : Nat :=
  (if s.clickPending = true then 1 else 0) +
  (if s.doubleClickPending = true then 1 else 0) +
  (if s.longPressPending = true then 1 else 0) +
  (if s.ultraLongPressPending = true then 1 else 0) +
  (if s.pressAndRotatePending = true then 1 else 0)

/-- Sample clocks are nondecreasing, starting from `t`. -/
def chainFrom (t : Nat) : List EncoderInput → Prop
  | [] => True
  | i :: r => t ≤ i.time ∧ chainFrom i.time r

instance : ∀ t l, Decidable (chainFrom t l) := fun t l => by
  induction l generalizing t with
  | nil => exact .isTrue trivial
  | cons i r ih => exact @instDecidableAnd _ _ _ (ih i.time)

/-- Clock value of the last sample of `l`, or `t` if `l` is empty. -/
def endT (t : Nat) : List EncoderInput → Nat
  | [] => t
  | i :: r => endT i.time r

/-- A consumer-drained between-cycles recognizer state: all five gesture
pendings consumed, no double-click wait in progress, no press-and-rotate
gesture active, button released at the previous sample. -/
def Quiescent (s : EMState) : Prop :=
  s.clickPending = false ∧ s.doubleClickPending = false ∧
  s.longPressPending = false ∧ s.ultraLongPressPending = false ∧
  s.pressAndRotatePending = false ∧ s.waitingForDoubleClick = false ∧
  s.pressAndRotateActive = false ∧ s.lastButtonState = HIGH

instance (s : EMState) : Decidable (Quiescent s) := by
  unfold Quiescent; infer_instance

/-- Default thresholds documented in the `EncoderManager.cpp` header
comment: click under 500 ms, long press at 1000 ms, ultra-long press at
3000 ms, with a 500 ms double-click pairing window. -/
def defaultConfig : EncoderConfig :=
  { clickTimeout := 500, longPressDuration := 1000,
    ultraLongPressDuration := 3000, doubleClickWindow := 500 }

/-- Event kinds used by the core (`EventType` in the SDK headers); the
kinds the spec lists for gestures that `Core.cpp` never constructs are
included as members of the closed enumeration. -/
inductive EventType
  | ENCODER_ROTATION
  | ENCODER_CLICK
  | ENCODER_DOUBLE_CLICK
  | ENCODER_LONG_PRESS
  | ENCODER_ULTRA_LONG_PRESS
  | ENCODER_PRESS_AND_ROTATE
  | ENCODER_PRESS_TIME
  | ENCODER_BUTTON_RELEASED
  | WIFI_CONNECTING
  | WIFI_CONNECTED
  | WIFI_DISCONNECTED
  | DISPLAY_WIFI_CONNECTING
  | DISPLAY_WIFI_AP_MODE
  | DISPLAY_WIFI_SETUP_URL
  | DISPLAY_WAKE_UP
  | BOOTING_COMPLETE
  deriving Repr, DecidableEq

/-- Immutable event value: a kind, an optional integer payload and an
optional string payload. -/
structure Event where
  type : EventType
  value : Int := 0
  str : Option String := none
  deriving Repr, DecidableEq

/-- Result of one render-loop tick (`Core::runUITask` body): the encoder
state afterwards, the events forwarded to the main-bound channel
direction in emission order, and whether the display collaborator was
updated this tick. -/
structure UITickResult where
  state : EMState
  toMain : List Event
  displayUpdated : Bool
  deriving Repr, DecidableEq

/-- One iteration of the `while (true)` body of `Core::runUITask`:
`encoder->update()`, then drain `getMovement`, `getClicked`,
`getLongPressed`, `getPressTime`, `getLastPressDuration` (with
`resetLastPressDuration`), forwarding an event for each non-trivial
result, then `display->update()`. -/
def uiTick (c : EncoderConfig) (s0 : EMState) (i : EncoderInput) :
    UITickResult :=
  let su := update c s0 i
  let m := getMovement su i.level
  let evs1 : List Event :=
    if m.1 ≠ 0 then [{ type := EventType.ENCODER_ROTATION, value := m.1 }]
    else []
  let ck := getClicked m.2
  let evs2 : List Event :=
    evs1 ++ (if ck.1 = true then [{ type := EventType.ENCODER_CLICK }] else [])
  let lp := getLongPressed ck.2
  let evs3 : List Event :=
    evs2 ++
      (if lp.1 = true then [{ type := EventType.ENCODER_LONG_PRESS }] else [])
  let pt := getPressTime lp.2 i.level i.time
  let evs4 : List Event :=
    evs3 ++
      (if pt ≠ 0 then
        [{ type := EventType.ENCODER_PRESS_TIME, value := (pt : Int) }]
      else [])
  let pd := lp.2.lastPressDuration
  if pd ≠ 0 then
    { state := (resetLastPressDuration lp.2).2,
      toMain := evs4 ++
        [{ type := EventType.ENCODER_BUTTON_RELEASED, value := (pd : Int) }],
      displayUpdated := true }
  else
    { state := lp.2, toMain := evs4, displayUpdated := true }

/-- `SystemState` enumeration of `Core`. -/
inductive SystemState
  | BOOTING
  | INITIALIZING
  | WIFI_CONNECTING
  | WIFI_AP_MODE
  | READY
  | RUNNING
  | ERROR
  deriving Repr, DecidableEq

/-- `WiFiManager::WiFiState` as observed by `Core`. -/
inductive WiFiState
  | DISCONNECTED
  | CONNECTING
  | CONNECTED
  | CREDENTIAL_NOT_FOUND
  | TIMEOUT
  | ERROR
  | AP_MODE
  deriving Repr, DecidableEq

/-- The coordination-side mutable state of `Core`: the system state with
its entry timestamp, plus the two function-local `static` latches of
`Core::handleWiFiConnection`. -/
structure CoreState where
  currentState : SystemState
  stateStartTime : Nat
  lastWiFiState : WiFiState
  clientWasConnected : Bool
  deriving Repr, DecidableEq

/-- What one coordination tick observes from the outside world: the
`millis()` clock and the network collaborator accessors. -/
structure CoordInput where
  now : Nat
  wifiState : WiFiState
  hasAPClient : Bool := false
  ssid : String := ""
  apIP : String := ""
  deriving Repr, DecidableEq

/-- Observable collaborator interactions of one coordination tick:
events sent to the UI-bound channel direction, events handed to the
application orchestrator, whether `wifi->init()`, `wifi->setupAP()` and
`webServer->init()` were called, and how often the `start()` guard fired
its READY-to-RUNNING transition. -/
structure CoreOutput where
  uiEvents : List Event := []
  appEvents : List Event := []
  wifiInitCalled : Bool := false
  apSetupCalled : Bool := false
  webServerInitCalled : Bool := false
  startFires : Nat := 0
  deriving Repr, DecidableEq

/-- Sequential merge of tick outputs. -/
def mergeOutput (a b : CoreOutput) : CoreOutput :=
  { uiEvents := a.uiEvents ++ b.uiEvents,
    appEvents := a.appEvents ++ b.appEvents,
    wifiInitCalled := a.wifiInitCalled || b.wifiInitCalled,
    apSetupCalled := a.apSetupCalled || b.apSetupCalled,
    webServerInitCalled := a.webServerInitCalled || b.webServerInitCalled,
    startFires := a.startFires + b.startFires }

/-- `Core::setState`: a transition fires only when the target differs,
recording the entry time; otherwise nothing changes. -/
def setState (s : CoreState) (target : SystemState) (now : Nat) : CoreState :=
  if s.currentState ≠ target then
    { s with currentState := target, stateStartTime := now }
  else s

/-- `Core::start`: a silent no-op unless the current state is exactly
READY, in which case the system transitions to RUNNING.  The second
component is a ghost count of how often the RUNNING transition fired. -/
def start (s : CoreState) (now : Nat) : CoreState × Nat :=
  if s.currentState ≠ SystemState.READY then (s, 0)
  else (setState s SystemState.RUNNING now, 1)

/-- `Core::handleBootingState`: once `millis()` reaches the fixed 4000 ms
boot delay, transition to INITIALIZING and either start the WiFi
connection process (`WIFI_REQUIRED`) or go straight to READY waking the
display; in both cases a BOOTING_COMPLETE event goes to the application
orchestrator. -/
def handleBootingState (wifiRequired : Bool) (s : CoreState) (now : Nat) :
    CoreState × CoreOutput :=
  if 4000 ≤ now then
    let s1 := setState s SystemState.INITIALIZING now
    if wifiRequired = true then
      (s1, { uiEvents := [{ type := EventType.DISPLAY_WIFI_CONNECTING }],
             appEvents := [{ type := EventType.BOOTING_COMPLETE }],
             wifiInitCalled := true })
    else
      (setState s1 SystemState.READY now,
       { uiEvents := [{ type := EventType.DISPLAY_WAKE_UP }],
         appEvents := [{ type := EventType.BOOTING_COMPLETE }] })
  else (s, {})

/-- `Core::handleWiFiConnection`: react to network state *changes* with
system-state transitions, collaborator calls and events, then run the
AP-client edge detector that shows the setup URL once per association. -/
def handleWiFiConnection (s : CoreState) (i : CoordInput) :
    CoreState × CoreOutput :=
  let so :=
    if i.wifiState ≠ s.lastWiFiState then
      let sb := { s with lastWiFiState := i.wifiState }
      match i.wifiState with
      | WiFiState.CONNECTING =>
          (setState sb SystemState.WIFI_CONNECTING i.now,
           ({ appEvents := [{ type := EventType.WIFI_CONNECTING }] } :
             CoreOutput))
      | WiFiState.CONNECTED =>
          (setState sb SystemState.READY i.now,
           { uiEvents := [{ type := EventType.ENCODER_ROTATION, value := 0 }],
             appEvents := [{ type := EventType.WIFI_CONNECTED }] })
      | WiFiState.CREDENTIAL_NOT_FOUND =>
          (sb, { appEvents := [{ type := EventType.WIFI_DISCONNECTED }],
                 apSetupCalled := true })
      | WiFiState.TIMEOUT =>
          (sb, { appEvents := [{ type := EventType.WIFI_DISCONNECTED }],
                 apSetupCalled := true })
      | WiFiState.ERROR =>
          (sb, { appEvents := [{ type := EventType.WIFI_DISCONNECTED }],
                 apSetupCalled := true })
      | WiFiState.AP_MODE =>
          (setState sb SystemState.WIFI_AP_MODE i.now,
           { uiEvents := [{ type := EventType.DISPLAY_WIFI_AP_MODE,
                            str := some (i.ssid ++ "|" ++ i.apIP) }],
             webServerInitCalled := true })
      | WiFiState.DISCONNECTED => (sb, {})
    else (s, {})
  if i.wifiState = WiFiState.AP_MODE then
    let o2 : CoreOutput :=
      if i.hasAPClient = true ∧ so.1.clientWasConnected = false then
        { uiEvents := [{ type := EventType.DISPLAY_WIFI_SETUP_URL,
                         str := some ("http:" ++ "//" ++ i.apIP ++ "/setup") }] }
      else {}
    ({ so.1 with clientWasConnected := i.hasAPClient },
     mergeOutput so.2 o2)
  else so

/-- One tick of `Core::coordinationLoop`, keeping the source order:
boot-sequence handling, network handling, the READY auto-start guard.
The remaining per-tick work (orchestrator update, serial commands,
channel drain, health diagnostics) touches no `CoreState` field and is
omitted as opaque. -/
def coordinationLoop (wifiRequired : Bool) (s : CoreState) (i : CoordInput) :
    CoreState × CoreOutput :=
  let b :=
    if s.currentState = SystemState.BOOTING then
      handleBootingState wifiRequired s i.now
    else (s, {})
  let w := handleWiFiConnection b.1 i
  let f :=
    if w.1.currentState = SystemState.READY then start w.1 i.now
    else (w.1, 0)
  (f.1, mergeOutput (mergeOutput b.2 w.2) { startFires := f.2 })

/-- Number of BOOTING_COMPLETE application events in a tick output. -/
def bootCompleteCount (o : CoreOutput) : Nat :=
  (o.appEvents.filter (fun e => e.type = EventType.BOOTING_COMPLETE)).length

/-- Run the coordination loop over a sequence of ticks, returning the
final state and the total number of BOOTING_COMPLETE events emitted. -/
def coordRun (wifiRequired : Bool) (s : CoreState) :
    List CoordInput → CoreState × Nat
  | [] => (s, 0)
  | i :: rest =>
      let t := coordinationLoop wifiRequired s i
      let r := coordRun wifiRequired t.1 rest
      (r.1, bootCompleteCount t.2 + r.2)

/-- State right after `Core::initialize()`: BOOTING entered at clock 0,
with the `static` latches of `handleWiFiConnection` at their
zero-initialized values. -/
def initCoreState : CoreState :=
  { currentState := SystemState.BOOTING, stateStartTime := 0,
    lastWiFiState := WiFiState.DISCONNECTED, clientWasConnected := false }

/-- Lowercase hexadecimal digit, as produced by `snprintf` with `%x`. -/
def hexDigit (n : Nat) : Char :=
  if n < 10 then Char.ofNat (48 + n) else Char.ofNat (87 + n)

/-- Zero-padded 8-digit lowercase hex rendering of a 32-bit value, as
`snprintf(id, 9, "%08x", low)` produces. -/
def hex8 (v : Nat) : String :=
  String.mk ((List.range 8).map (fun k => hexDigit (v / 16 ^ (7 - k) % 16)))

/-- `DeviceID::getDeviceID`: the low 32 bits of the eFuse MAC, rendered
as 8 lowercase hex characters.  `mac` is the 64-bit eFuse value. -/
def getDeviceID (mac : Nat) : String :=
  hex8 (mac % 2 ^ 32)

/-- Arduino `String::substring(0, n)`: the first `n` characters. -/
def substring0 (s : String) (n : Nat) : String :=
  String.mk (s.data.take n)

/-- `DeviceID::getAPPassword`: first 8 characters of the device ID. -/
def getAPPassword (mac : Nat) : String :=
  substring0 (getDeviceID mac) 8

/-- `DeviceID::getAPSSID`. -/
def getAPSSID (mac : Nat) : String :=
  "CloudMouse-" ++ getDeviceID mac

/-- Proof device for claim C1: the invariant holding mid-cycle, i.e. after
the press edge of a cycle that started from a `Quiescent` state at clock
`t1` (with no rotation on the press-edge tick) has processed samples up to
clock `tp`, all with the button held. -/
def HoldInv (c : EncoderConfig) (t1 tp : Nat) (s : EMState) : Prop :=
  s.lastButtonState = LOW ∧
  s.pressStartTime = t1 ∧
  t1 ≤ tp ∧
  s.waitingForDoubleClick = false ∧
  s.clickPending = false ∧
  s.doubleClickPending = false ∧
  s.longPressPending = false ∧
  (s.pressAndRotateActive = true →
    s.pressAndRotatePending = true ∧ s.ultraLongPressPending = false) ∧
  (s.pressAndRotateActive = false → s.pressAndRotatePending = false) ∧
  (s.ultraLongPressPending = true →
    s.ultraLongPressNotified = true ∧
    c.ultraLongPressDuration ≤ tp - t1)

/-- Proof device for claim C2: the closed form of the recognizer state
during a rotation-free hold that started from the `Quiescent` state `s0`
at clock `t1` and has processed samples up to clock `tk`. -/
def holdClosed (c : EncoderConfig) (s0 : EMState) (t1 tk : Nat) : EMState :=
  { s0 with pressStartTime := t1, lastButtonState := LOW,
            pressAndRotateActive := false,
            longPressBuzzed := decide (c.longPressDuration ≤ tk - t1),
            ultraLongPressNotified :=
              decide (c.ultraLongPressDuration ≤ tk - t1),
            ultraLongPressPending :=
              decide (c.ultraLongPressDuration ≤ tk - t1),
            ultraLongPressRaises := s0.ultraLongPressRaises +
              (if c.ultraLongPressDuration ≤ tk - t1 then 1 else 0) }

/-- Concrete sample sequence refuting claim C1 as stated: an unconsumed
long press (one full cycle), then two short clicks forming a double click
(two further cycles); after the last cycle completes both the long-press
and the double-click pending flags are true. -/
def c1Trace : List EncoderInput :=
  [ { pos := 0, level := LOW, time := 0 },
    { pos := 0, level := HIGH, time := 1500 },
    { pos := 0, level := LOW, time := 2000 },
    { pos := 0, level := HIGH, time := 2100 },
    { pos := 0, level := LOW, time := 2200 },
    { pos := 0, level := HIGH, time := 2300 } ]

/-- Concrete sample sequence refuting claim C3 as stated: a double click
left unconsumed, then a new press promoted to press-and-rotate by a
rotation delta while held. -/
def c3Trace : List EncoderInput :=
  [ { pos := 0, level := LOW, time := 0 },
    { pos := 0, level := HIGH, time := 100 },
    { pos := 0, level := LOW, time := 200 },
    { pos := 0, level := HIGH, time := 300 },
    { pos := 0, level := LOW, time := 400 },
    { pos := 4, level := LOW, time := 450 } ]

/-- Short double click leaving `doubleClickPending` set, used to refute
claim C6 (the render loop never drains `getDoubleClicked`). -/
def c6PreTrace : List EncoderInput :=
  [ { pos := 0, level := LOW, time := 0 },
    { pos := 0, level := HIGH, time := 100 },
    { pos := 0, level := LOW, time := 200 },
    { pos := 0, level := HIGH, time := 300 } ]

/-- The render-loop tick sample following `c6PreTrace`. -/
def c6Input : EncoderInput := { pos := 0, level := HIGH, time := 400 }

/-- Hold crossing the ultra-long-press threshold mid-hold, used as the
witness trace for claims C1 and C2. -/
def ultraHoldFirst : EncoderInput := { pos := 0, level := LOW, time := 0 }

/-- Mid-hold samples of the witness trace for claims C1 and C2. -/
def ultraHoldMids : List EncoderInput := [ { pos := 0, level := LOW, time := 3000 } ]

/-- Release sample of the witness trace for claims C1 and C2. -/
def ultraHoldLast : EncoderInput := { pos := 0, level := HIGH, time := 3100 }

/-! ## Helper lemmas -/

theorem handleBootingState_startFires (wr : Bool) (s : CoreState) (now : Nat) :
    (handleBootingState wr s now).2.startFires = 0 := by
  unfold handleBootingState
  split <;> (try split) <;> rfl

theorem handleWiFiConnection_startFires (s : CoreState) (i : CoordInput) :
    (handleWiFiConnection s i).2.startFires = 0 := by
  obtain ⟨now, ws, hac, ssid, apip⟩ := i
  cases ws <;> simp only [handleWiFiConnection] <;> split_ifs <;>
    simp [mergeOutput]

theorem hexDigit_mem_of_lt (n : Nat) (h : n < 16) :
    hexDigit n ∈ ("0123456789abcdef").data := by
  interval_cases n <;> decide

/-! ## Claim theorems -/

/-- C1 counterexample: the claim quantifies over every sample sequence, so
pending flags raised by earlier press/release cycles and never consumed
are still true when a later cycle completes.  After the three cycles of
`c1Trace` (a 1500 ms long press, then two 100 ms clicks pairing into a
double click) the trace ends exactly at the release completing the third
cycle, yet two of the five pending flags (long press and double click)
are true, refuting "at most one ... immediately after any single
press/release cycle completes". -/
theorem c1_counterexample :
    pendingCount (run defaultConfig initState c1Trace) = 2 ∧
    (run defaultConfig initState c1Trace).longPressPending = true ∧
    (run defaultConfig initState c1Trace).doubleClickPending = true ∧
    (run defaultConfig initState c1Trace).lastButtonState = HIGH := by
  decide

/-- C3 counterexample: `processEncoder` promotion clears `clickPending`,
`longPressPending`, `ultraLongPressPending` and `waitingForDoubleClick`,
but not `doubleClickPending`.  After `c3Trace` (an unconsumed double
click, then a press promoted to press-and-rotate by rotation while held)
the press-and-rotate gesture is active and pending, yet the double-click
pending flag is still true, refuting the claimed cancellation of "all of
the click, double-click, long-press, and ultra-long-press pending
flags". -/
theorem c3_counterexample :
    (run defaultConfig initState c3Trace).pressAndRotateActive = true ∧
    (run defaultConfig initState c3Trace).pressAndRotatePending = true ∧
    (run defaultConfig initState c3Trace).doubleClickPending = true := by
  decide

/-- C3 amended: on a mid-hold tick (button held now and at the previous
sample) with no press-and-rotate active, a non-zero rotation delta raises
the press-and-rotate pending flag, marks the gesture active, cancels the
click, long-press and ultra-long-press pending flags and the double-click
wait state (but not a `doubleClickPending` left over from an earlier
cycle), keeps accumulating movement, and `getMovement` returns 0 without
consuming while the gesture holds. -/
theorem c3_press_and_rotate_promotion (c : EncoderConfig) (s : EMState)
    (i : EncoderInput)
    (hlb : s.lastButtonState = LOW) (hlv : i.level = LOW)
    (hact : s.pressAndRotateActive = false)
    (hrot : i.pos.tdiv 4 ≠ s.lastValue) :
    (update c s i).pressAndRotatePending = true ∧
    (update c s i).pressAndRotateActive = true ∧
    (update c s i).clickPending = false ∧
    (update c s i).longPressPending = false ∧
    (update c s i).ultraLongPressPending = false ∧
    (update c s i).waitingForDoubleClick = false ∧
    (update c s i).doubleClickPending = s.doubleClickPending ∧
    (update c s i).movement = s.movement + (i.pos.tdiv 4 - s.lastValue) ∧
    (update c s i).movementPending = true ∧
    getMovement (update c s i) i.level = (0, update c s i) ∧
    (update c s i).pressAndRotateRaises = s.pressAndRotateRaises + 1 := by
  simp [update, processEncoder, processButton, pressEdgeStep, releaseEdgeStep,
    ongoingPressStep, doubleClickTimeoutStep, getMovement, hrot, hlv, hact, hlb]

/-- C3 witness: the amended promotion theorem applied to the state after
an idle tick, with a one-detent rotation arriving mid-hold. -/
theorem c3_witness :
    (update defaultConfig
      { initState with lastButtonState := LOW, doubleClickPending := true }
      { pos := 4, level := LOW, time := 50 }).pressAndRotatePending = true ∧
    (update defaultConfig
      { initState with lastButtonState := LOW, doubleClickPending := true }
      { pos := 4, level := LOW, time := 50 }).doubleClickPending = true := by
  have h := c3_press_and_rotate_promotion defaultConfig
    { initState with lastButtonState := LOW, doubleClickPending := true }
    { pos := 4, level := LOW, time := 50 }
    (by decide) (by decide) (by decide) (by decide)
  exact ⟨h.1, by rw [h.2.2.2.2.2.2.1]⟩

/-- C5: `getMovement` is an at-most-once consumer.  With the button up
and no press-and-rotate active, it returns the accumulated delta and
clears both the accumulator and the pending flag, so an immediate second
call returns 0; while the button is held or a press-and-rotate gesture is
active it returns 0 and changes nothing.  The hypothesis `hm` is the
(reachable-state) invariant that a cleared pending flag means an empty
accumulator. -/
theorem c5_get_movement_consume_once (s : EMState)
    (hm : s.movementPending = false → s.movement = 0)
    (ha : s.pressAndRotateActive = false) :
    (getMovement s HIGH).1 = s.movement ∧
    (getMovement s HIGH).2.movement = 0 ∧
    (getMovement s HIGH).2.movementPending = false ∧
    (getMovement (getMovement s HIGH).2 HIGH).1 = 0 ∧
    (∀ (s2 : EMState) (level : Bool),
      level = LOW ∨ s2.pressAndRotateActive = true →
      getMovement s2 level = (0, s2)) := by
  have hside : ∀ (s2 : EMState) (level : Bool),
      level = LOW ∨ s2.pressAndRotateActive = true →
      getMovement s2 level = (0, s2) := by
    intro s2 level h
    simp [getMovement, h]
  refine ⟨?_, ?_, ?_, ?_, hside⟩ <;>
    by_cases hp : s.movementPending = true <;>
      simp_all [getMovement, ha]

/-- C5 witness: consuming 3 accumulated detents once. -/
theorem c5_witness :
    (getMovement { initState with movement := 3, movementPending := true }
      HIGH).1 = 3 ∧
    (getMovement (getMovement
      { initState with movement := 3, movementPending := true } HIGH).2
      HIGH).1 = 0 := by
  have h := c5_get_movement_consume_once
    { initState with movement := 3, movementPending := true }
    (by decide) (by decide)
  exact ⟨h.1, h.2.2.2.1⟩

/-- C8: `Core::setState` with the current state is a complete no-op (no
re-entry, no timestamp reset); with a different target it changes exactly
the current state and the entry timestamp. -/
theorem c8_set_state_no_reentry (s : CoreState) (t : SystemState)
    (now : Nat) :
    (s.currentState = t → setState s t now = s) ∧
    (s.currentState ≠ t →
      setState s t now =
        { s with currentState := t, stateStartTime := now }) := by
  constructor <;> intro h <;> simp [setState, h]

/-- C8 witness: a self-transition at BOOTING is dropped; a transition to
READY changes exactly the state and the timestamp. -/
theorem c8_witness :
    setState initCoreState SystemState.BOOTING 5 = initCoreState ∧
    setState initCoreState SystemState.READY 7 =
      { initCoreState with currentState := SystemState.READY,
                           stateStartTime := 7 } :=
  ⟨(c8_set_state_no_reentry initCoreState SystemState.BOOTING 5).1 (by decide),
   (c8_set_state_no_reentry initCoreState SystemState.READY 7).2 (by decide)⟩

/-- C9: `Core::start` outside READY is a silent no-op (state unchanged,
nothing fired); at READY it transitions to RUNNING; and in any
coordination tick the auto-start guard fires at most once, a fire leaves
the system RUNNING, and no tick ends in READY -- so the guard cannot fire
again until READY is re-entered by a later tick. -/
theorem c9_start_guard :
    (∀ (s : CoreState) (now : Nat), s.currentState ≠ SystemState.READY →
      start s now = (s, 0)) ∧
    (∀ (s : CoreState) (now : Nat), s.currentState = SystemState.READY →
      start s now =
        ({ s with currentState := SystemState.RUNNING,
                  stateStartTime := now }, 1)) ∧
    (∀ (wr : Bool) (s : CoreState) (i : CoordInput),
      (coordinationLoop wr s i).2.startFires ≤ 1 ∧
      ((coordinationLoop wr s i).2.startFires = 1 →
        (coordinationLoop wr s i).1.currentState = SystemState.RUNNING) ∧
      (coordinationLoop wr s i).1.currentState ≠ SystemState.READY) := by
  refine ⟨?_, ?_, ?_⟩
  · intro s now h; simp [start, h]
  · intro s now h; simp [start, h, setState]
  · intro wr s i
    have hb := handleBootingState_startFires wr s i.now
    have hw := handleWiFiConnection_startFires
      (if s.currentState = SystemState.BOOTING then
        (handleBootingState wr s i.now).1 else s) i
    simp only [coordinationLoop, mergeOutput]
    split
    · simp_all
      split <;> simp_all [start, setState]
    · simp_all
      split <;> simp_all [start, setState]

/-- C9 witness: starting while BOOTING is a silent no-op. -/
theorem c9_witness : start initCoreState 5 = (initCoreState, 0) :=
  c9_start_guard.1 initCoreState 5 (by decide)

/-- C10: for every eFuse MAC value, the AP password equals the full
device ID, the device ID is exactly 8 lowercase hexadecimal characters,
and the AP SSID embeds the device ID verbatim. -/
theorem c10_ap_password_is_device_id (mac : Nat) :
    getAPPassword mac = getDeviceID mac ∧
    (getDeviceID mac).length = 8 ∧
    (∀ ch ∈ (getDeviceID mac).data, ch ∈ ("0123456789abcdef").data) ∧
    getAPSSID mac = "CloudMouse-" ++ getDeviceID mac := by
  refine ⟨?_, ?_, ?_, rfl⟩
  · show substring0 _ 8 = _
    unfold substring0 getDeviceID hex8
    rw [List.take_of_length_le (by simp)]
  · simp [getDeviceID, hex8, String.length]
  · intro ch hch
    simp only [getDeviceID, hex8] at hch
    rcases List.mem_map.mp hch with ⟨k, _, hk⟩
    subst hk
    exact hexDigit_mem_of_lt _ (Nat.mod_lt _ (by norm_num))

/-- C10 witness: the relation at the MAC value 0x0123456789abcdef. -/
theorem c10_witness :
    getAPPassword 81985529216486895 = getDeviceID 81985529216486895 :=
  (c10_ap_password_is_device_id 81985529216486895).1

theorem getMovement_snd_fields (s : EMState) (lvl : Bool) :
    (getMovement s lvl).2.clickPending = s.clickPending ∧
    (getMovement s lvl).2.longPressPending = s.longPressPending ∧
    (getMovement s lvl).2.doubleClickPending = s.doubleClickPending ∧
    (getMovement s lvl).2.ultraLongPressPending = s.ultraLongPressPending ∧
    (getMovement s lvl).2.pressAndRotatePending = s.pressAndRotatePending ∧
    (getMovement s lvl).2.lastPressDuration = s.lastPressDuration ∧
    (getMovement s lvl).2.pressAndRotateActive = s.pressAndRotateActive ∧
    (getMovement s lvl).2.pressStartTime = s.pressStartTime := by
  unfold getMovement; split_ifs <;> simp_all

theorem getMovement_clears (s : EMState) (lvl : Bool) (h1 : lvl = HIGH)
    (h2 : s.pressAndRotateActive = false) :
    (getMovement s lvl).2.movementPending = false ∧
    (getMovement s lvl).2.movement = 0 ∨
    s.movementPending = false ∧ (getMovement s lvl).2 = s := by
  unfold getMovement; split_ifs <;> simp_all

theorem getClicked_fst (s : EMState) : (getClicked s).1 = s.clickPending := by
  unfold getClicked; split_ifs <;> simp_all

theorem getClicked_snd_fields (s : EMState) :
    (getClicked s).2.clickPending = false ∧
    (getClicked s).2.longPressPending = s.longPressPending ∧
    (getClicked s).2.doubleClickPending = s.doubleClickPending ∧
    (getClicked s).2.ultraLongPressPending = s.ultraLongPressPending ∧
    (getClicked s).2.pressAndRotatePending = s.pressAndRotatePending ∧
    (getClicked s).2.lastPressDuration = s.lastPressDuration ∧
    (getClicked s).2.movementPending = s.movementPending ∧
    (getClicked s).2.pressAndRotateActive = s.pressAndRotateActive ∧
    (getClicked s).2.pressStartTime = s.pressStartTime := by
  unfold getClicked; split_ifs <;> simp_all

theorem getLongPressed_fst (s : EMState) :
    (getLongPressed s).1 = s.longPressPending := by
  unfold getLongPressed; split_ifs <;> simp_all

theorem getLongPressed_snd_fields (s : EMState) :
    (getLongPressed s).2.longPressPending = false ∧
    (getLongPressed s).2.clickPending = s.clickPending ∧
    (getLongPressed s).2.doubleClickPending = s.doubleClickPending ∧
    (getLongPressed s).2.ultraLongPressPending = s.ultraLongPressPending ∧
    (getLongPressed s).2.pressAndRotatePending = s.pressAndRotatePending ∧
    (getLongPressed s).2.lastPressDuration = s.lastPressDuration ∧
    (getLongPressed s).2.movementPending = s.movementPending ∧
    (getLongPressed s).2.pressAndRotateActive = s.pressAndRotateActive ∧
    (getLongPressed s).2.pressStartTime = s.pressStartTime := by
  unfold getLongPressed; split_ifs <;> simp_all

theorem resetLastPressDuration_snd_fields (s : EMState) :
    (resetLastPressDuration s).2.longPressPending = s.longPressPending ∧
    (resetLastPressDuration s).2.clickPending = s.clickPending ∧
    (resetLastPressDuration s).2.doubleClickPending = s.doubleClickPending ∧
    (resetLastPressDuration s).2.ultraLongPressPending =
      s.ultraLongPressPending ∧
    (resetLastPressDuration s).2.pressAndRotatePending =
      s.pressAndRotatePending ∧
    (resetLastPressDuration s).2.movementPending = s.movementPending := by
  unfold resetLastPressDuration; split_ifs <;> simp_all

theorem c6_render_loop_drain (c : EncoderConfig) (s : EMState)
    (i : EncoderInput) :
    (uiTick c s i).displayUpdated = true ∧
    (uiTick c s i).state.doubleClickPending = (update c s i).doubleClickPending ∧
    (uiTick c s i).state.ultraLongPressPending =
      (update c s i).ultraLongPressPending ∧
    (uiTick c s i).state.pressAndRotatePending =
      (update c s i).pressAndRotatePending ∧
    (uiTick c s i).state.clickPending = false ∧
    (uiTick c s i).state.longPressPending = false ∧
    ((update c s i).clickPending = true →
      ({ type := EventType.ENCODER_CLICK, value := 0, str := none } : Event) ∈
        (uiTick c s i).toMain) ∧
    ((update c s i).longPressPending = true →
      ({ type := EventType.ENCODER_LONG_PRESS, value := 0, str := none } :
        Event) ∈ (uiTick c s i).toMain) ∧
    (i.level = HIGH → (update c s i).pressAndRotateActive = false →
      (uiTick c s i).state.movementPending = false) := by
  refine ⟨?_, ?_, ?_, ?_, ?_, ?_, ?_, ?_, ?_⟩
  · simp only [uiTick]; split <;> rfl
  · simp [uiTick, getMovement_snd_fields, getClicked_snd_fields,
      getLongPressed_snd_fields, resetLastPressDuration_snd_fields]
    split <;> simp [getMovement_snd_fields, getClicked_snd_fields,
      getLongPressed_snd_fields, resetLastPressDuration_snd_fields]
  · simp [uiTick]
    split <;> simp [getMovement_snd_fields, getClicked_snd_fields,
      getLongPressed_snd_fields, resetLastPressDuration_snd_fields]
  · simp [uiTick]
    split <;> simp [getMovement_snd_fields, getClicked_snd_fields,
      getLongPressed_snd_fields, resetLastPressDuration_snd_fields]
  · simp [uiTick]
    split <;> simp [getMovement_snd_fields, getClicked_snd_fields,
      getLongPressed_snd_fields, resetLastPressDuration_snd_fields]
  · simp [uiTick]
    split <;> simp [getMovement_snd_fields, getClicked_snd_fields,
      getLongPressed_snd_fields, resetLastPressDuration_snd_fields]
  · intro hc
    simp [uiTick]
    split <;>
      simp [getClicked_fst, getMovement_snd_fields, getClicked_snd_fields,
        getLongPressed_snd_fields, hc]
  · intro hc
    simp [uiTick]
    split <;>
      simp [getLongPressed_fst, getMovement_snd_fields, getClicked_snd_fields,
        getLongPressed_snd_fields, hc]
  · intro h1 h2
    rcases getMovement_clears (update c s i) i.level h1 h2 with hmv | hmv
    · simp [uiTick]
      split <;> simp [getClicked_snd_fields, getLongPressed_snd_fields,
        resetLastPressDuration_snd_fields, hmv.1]
    · simp [uiTick]
      split <;> simp [getClicked_snd_fields, getLongPressed_snd_fields,
        resetLastPressDuration_snd_fields, hmv.2, hmv.1]

/-- C6 counterexample: the render loop (`Core::runUITask`) never calls
`getDoubleClicked`, `getUltraLongPressed` or `getPressAndRotate`.  With a
double click left pending by `c6PreTrace`, the next render tick forwards
only the button-released event and leaves the double-click pending flag
set, refuting the claim that each tick drains every consumption method. -/
theorem c6_counterexample :
    (run defaultConfig initState c6PreTrace).doubleClickPending = true ∧
    (uiTick defaultConfig (run defaultConfig initState c6PreTrace)
      c6Input).state.doubleClickPending = true ∧
    (uiTick defaultConfig (run defaultConfig initState c6PreTrace)
      c6Input).toMain =
      [ { type := EventType.ENCODER_BUTTON_RELEASED, value := 100,
          str := none } ] := by
  decide

/-- C6 witness: the amended drain theorem at the concrete post-double-
click state, showing the undrained flag is preserved verbatim while the
movement accumulator is drained. -/
theorem c6_witness :
    (uiTick defaultConfig (run defaultConfig initState c6PreTrace)
      c6Input).state.doubleClickPending =
      (update defaultConfig (run defaultConfig initState c6PreTrace)
        c6Input).doubleClickPending ∧
    (uiTick defaultConfig (run defaultConfig initState c6PreTrace)
      c6Input).state.movementPending = false :=
  ⟨(c6_render_loop_drain defaultConfig
      (run defaultConfig initState c6PreTrace) c6Input).2.1,
   (c6_render_loop_drain defaultConfig
      (run defaultConfig initState c6PreTrace) c6Input).2.2.2.2.2.2.2.2
     (by decide) (by decide)⟩

theorem processEncoder_noRot (s : EMState) (i : EncoderInput)
    (h : i.pos.tdiv 4 = s.lastValue) : processEncoder s i = s := by
  simp [processEncoder, h]

set_option maxHeartbeats 1600000 in
theorem holdClosed_step (c : EncoderConfig) (s0 : EMState) (t1 tk : Nat)
    (i : EncoderInput) (hq : Quiescent s0) (hlv : i.level = LOW)
    (hrot : i.pos.tdiv 4 = s0.lastValue)
    (_h1k : t1 ≤ tk) (hki : tk ≤ i.time) :
    update c (holdClosed c s0 t1 tk) i = holdClosed c s0 t1 i.time := by
  obtain ⟨h1, h2, h3, h4, h5, h6, h7, h8⟩ := hq
  have hmono : tk - t1 ≤ i.time - t1 := Nat.sub_le_sub_right hki t1
  have hlv2 : (holdClosed c s0 t1 tk).lastValue = s0.lastValue := rfl
  rw [update, processEncoder_noRot _ i (hrot.trans hlv2.symm)]
  by_cases hu : c.ultraLongPressDuration ≤ tk - t1 <;>
    by_cases hui : c.ultraLongPressDuration ≤ i.time - t1 <;>
      by_cases hb : c.longPressDuration ≤ tk - t1 <;>
        by_cases hbi : c.longPressDuration ≤ i.time - t1 <;>
          first
          | (exfalso; omega)
          | simp [processButton, pressEdgeStep, releaseEdgeStep,
              ongoingPressStep, doubleClickTimeoutStep, holdClosed, hlv,
              h1, h2, h3, h4, h5, h6, h7, h8, hu, hui, hb, hbi]

theorem endT_append (t : Nat) (l1 l2 : List EncoderInput) :
    endT t (l1 ++ l2) = endT (endT t l1) l2 := by
  induction l1 generalizing t with
  | nil => rfl
  | cons a r ih => simp [endT, ih]

theorem chainFrom_append (t : Nat) (l1 l2 : List EncoderInput) :
    chainFrom t (l1 ++ l2) ↔ chainFrom t l1 ∧ chainFrom (endT t l1) l2 := by
  induction l1 generalizing t with
  | nil => simp [chainFrom, endT]
  | cons a r ih => simp [chainFrom, endT, ih, and_assoc]

theorem endT_ge (t : Nat) (l : List EncoderInput) (h : chainFrom t l) :
    t ≤ endT t l := by
  induction l generalizing t with
  | nil => exact Nat.le_refl t
  | cons a r ih => exact Nat.le_trans h.1 (ih a.time h.2)

theorem chainFrom_take (t : Nat) (l : List EncoderInput) (k : Nat)
    (h : chainFrom t l) : chainFrom t (l.take k) := by
  induction l generalizing t k with
  | nil => simp [chainFrom]
  | cons a r ih =>
      cases k with
      | zero => trivial
      | succ k => exact ⟨h.1, ih a.time k h.2⟩

theorem holdClosed_first (c : EncoderConfig) (s0 : EMState)
    (f : EncoderInput) (hq : Quiescent s0) (hlv : f.level = LOW)
    (hrot : f.pos.tdiv 4 = s0.lastValue) :
    update c s0 f = holdClosed c s0 f.time f.time := by
  obtain ⟨h1, h2, h3, h4, h5, h6, h7, h8⟩ := hq
  rw [update, processEncoder_noRot s0 f hrot]
  by_cases hL : c.longPressDuration ≤ 0 <;>
    by_cases hU : c.ultraLongPressDuration ≤ 0 <;>
      simp [processButton, pressEdgeStep, releaseEdgeStep, ongoingPressStep,
        doubleClickTimeoutStep, holdClosed, hlv, h1, h2, h3, h4, h5, h6, h7,
        h8, hL, hU]

theorem holdClosed_run (c : EncoderConfig) (s0 : EMState) (t1 : Nat)
    (hq : Quiescent s0) :
    ∀ (mids : List EncoderInput) (tk : Nat), t1 ≤ tk →
    chainFrom tk mids →
    (∀ i ∈ mids, i.level = LOW) →
    (∀ i ∈ mids, i.pos.tdiv 4 = s0.lastValue) →
    run c (holdClosed c s0 t1 tk) mids =
      holdClosed c s0 t1 (endT tk mids) := by
  intro mids
  induction mids with
  | nil => intro tk _ _ _ _; rfl
  | cons a r ih =>
      intro tk h1k hc hlv hrot
      have ha : update c (holdClosed c s0 t1 tk) a =
          holdClosed c s0 t1 a.time :=
        holdClosed_step c s0 t1 tk a
          ⟨hq.1, hq.2.1, hq.2.2.1, hq.2.2.2.1, hq.2.2.2.2.1, hq.2.2.2.2.2.1,
           hq.2.2.2.2.2.2.1, hq.2.2.2.2.2.2.2⟩
          (hlv a (by simp)) (hrot a (by simp)) h1k hc.1
      show run c (update c (holdClosed c s0 t1 tk) a) r = _
      rw [ha]
      exact ih a.time (Nat.le_trans h1k hc.1) hc.2
        (fun i hi => hlv i (by simp [hi]))
        (fun i hi => hrot i (by simp [hi]))

set_option maxHeartbeats 1600000 in
theorem holdClosed_release (c : EncoderConfig) (s0 : EMState) (t1 tk : Nat)
    (i : EncoderInput) (hq : Quiescent s0) (hlv : i.level = HIGH)
    (hrot : i.pos.tdiv 4 = s0.lastValue)
    (hki : tk ≤ i.time)
    (hultra : c.ultraLongPressDuration ≤ i.time - t1) :
    (update c (holdClosed c s0 t1 tk) i).ultraLongPressPending = true ∧
    (update c (holdClosed c s0 t1 tk) i).ultraLongPressRaises =
      s0.ultraLongPressRaises + 1 := by
  obtain ⟨h1, h2, h3, h4, h5, h6, h7, h8⟩ := hq
  have hmono : tk - t1 ≤ i.time - t1 := Nat.sub_le_sub_right hki t1
  have hnd : ¬ (i.time - t1 < c.ultraLongPressDuration) := by omega
  have hlv2 : (holdClosed c s0 t1 tk).lastValue = s0.lastValue := rfl
  rw [update, processEncoder_noRot _ i (hrot.trans hlv2.symm)]
  by_cases hu : c.ultraLongPressDuration ≤ tk - t1 <;>
    simp [processButton, pressEdgeStep, releaseEdgeStep, classifyRelease,
      ongoingPressStep, doubleClickTimeoutStep, holdClosed, hlv,
      h1, h2, h3, h4, h5, h6, h7, h8, hu, hultra, hnd]

/-- C2: starting from a quiescent state, a rotation-free press/release
cycle sampled with a monotone clock whose hold lasts at least
`T_ultra` raises the ultra-long-press event exactly once (the ghost
raise counter increases by exactly 1): the pending flag becomes true at
the first sampled tick whose held duration reaches the threshold
(immediately, mid-hold, if the button is still down; at the release
otherwise), and the announced flag keeps the release from raising it a
second time. -/
theorem c2_ultra_exactly_once (c : EncoderConfig) (s0 : EMState)
    (first : EncoderInput) (mids : List EncoderInput) (last : EncoderInput)
    (hq : Quiescent s0)
    (hf1 : first.level = LOW)
    (hm1 : ∀ i ∈ mids, i.level = LOW)
    (hl1 : last.level = HIGH)
    (hrf : first.pos.tdiv 4 = s0.lastValue)
    (hrm : ∀ i ∈ mids, i.pos.tdiv 4 = s0.lastValue)
    (hrl : last.pos.tdiv 4 = s0.lastValue)
    (hc : chainFrom first.time (mids ++ [last]))
    (hu : c.ultraLongPressDuration ≤ last.time - first.time) :
    (run c s0 (first :: mids ++ [last])).ultraLongPressPending = true ∧
    (run c s0 (first :: mids ++ [last])).ultraLongPressRaises =
      s0.ultraLongPressRaises + 1 ∧
    (∀ k, k ≤ mids.length →
      ((run c s0 (first :: mids.take k)).ultraLongPressPending = true ↔
        c.ultraLongPressDuration ≤
          endT first.time (mids.take k) - first.time)) := by
  have hchain := (chainFrom_append first.time mids [last]).mp hc
  have hkl : endT first.time mids ≤ last.time := hchain.2.1
  have hfirst := holdClosed_first c s0 first hq hf1 hrf
  have hmidrun := holdClosed_run c s0 first.time hq mids first.time
    (Nat.le_refl _) hchain.1 hm1 hrm
  have hrunmids : run c s0 (first :: mids) =
      holdClosed c s0 first.time (endT first.time mids) := by
    show run c (update c s0 first) mids = _
    rw [hfirst, hmidrun]
  have hsplit : run c s0 (first :: mids ++ [last]) =
      update c (run c s0 (first :: mids)) last := by
    show run c s0 ((first :: mids) ++ [last]) = _
    rw [run, List.foldl_append]
    rfl
  have hrel := holdClosed_release c s0 first.time (endT first.time mids)
    last hq hl1 hrl hkl hu
  refine ⟨?_, ?_, ?_⟩
  · rw [hsplit, hrunmids]; exact hrel.1
  · rw [hsplit, hrunmids]; exact hrel.2
  · intro k _
    have hchaink := chainFrom_take first.time mids k hchain.1
    have htl : ∀ i ∈ mids.take k, i.level = LOW :=
      fun i hi => hm1 i (List.take_subset k mids hi)
    have htr : ∀ i ∈ mids.take k, i.pos.tdiv 4 = s0.lastValue :=
      fun i hi => hrm i (List.take_subset k mids hi)
    have hrun : run c s0 (first :: mids.take k) =
        holdClosed c s0 first.time (endT first.time (mids.take k)) := by
      show run c (update c s0 first) (mids.take k) = _
      rw [hfirst, holdClosed_run c s0 first.time hq (mids.take k) first.time
        (Nat.le_refl _) hchaink htl htr]
    rw [hrun]
    simp [holdClosed]

/-- C2 witness: a hold from 0 ms crossing the 3000 ms threshold at the
3000 ms tick and released at 3100 ms raises ultra-long press exactly
once. -/
theorem c2_witness :
    (run defaultConfig initState
      (ultraHoldFirst :: ultraHoldMids ++ [ultraHoldLast])
     ).ultraLongPressPending = true ∧
    (run defaultConfig initState
      (ultraHoldFirst :: ultraHoldMids ++ [ultraHoldLast])
     ).ultraLongPressRaises = initState.ultraLongPressRaises + 1 := by
  have h := c2_ultra_exactly_once defaultConfig initState ultraHoldFirst
    ultraHoldMids ultraHoldLast (by decide) (by decide) (by decide)
    (by decide) (by decide) (by decide) (by decide) (by decide) (by decide)
  exact ⟨h.1, h.2.1⟩

set_option maxHeartbeats 1600000 in
theorem c4_scenario_a (c : EncoderConfig) (p : Int) (s0 : EMState)
    (ta tb tc td : Nat) (hq : Quiescent s0) (hp : p.tdiv 4 = s0.lastValue)
    (hcl : c.clickTimeout ≤ c.longPressDuration)
    (hlu : c.longPressDuration ≤ c.ultraLongPressDuration)
    (_h1 : ta ≤ tb) (h2 : tb ≤ tc) (h3 : tc ≤ td)
    (hd1 : tb - ta < c.clickTimeout)
    (hd2 : td - tc < c.clickTimeout)
    (hw : td - tb ≤ c.doubleClickWindow) :
    (run c s0 [ { pos := p, level := LOW, time := ta },
                { pos := p, level := HIGH, time := tb },
                { pos := p, level := LOW, time := tc },
                { pos := p, level := HIGH, time := td } ]
     ).doubleClickPending = true ∧
    (run c s0 [ { pos := p, level := LOW, time := ta },
                { pos := p, level := HIGH, time := tb },
                { pos := p, level := LOW, time := tc },
                { pos := p, level := HIGH, time := td } ]
     ).clickPending = false ∧
    (run c s0 [ { pos := p, level := LOW, time := ta },
                { pos := p, level := HIGH, time := tb },
                { pos := p, level := LOW, time := tc },
                { pos := p, level := HIGH, time := td } ]
     ).doubleClickRaises = s0.doubleClickRaises + 1 ∧
    (run c s0 [ { pos := p, level := LOW, time := ta },
                { pos := p, level := HIGH, time := tb },
                { pos := p, level := LOW, time := tc },
                { pos := p, level := HIGH, time := td } ]
     ).clickRaises = s0.clickRaises := by
  obtain ⟨q1, q2, q3, q4, q5, q6, q7, q8⟩ := hq
  have hL0 : ¬ (c.longPressDuration = 0) := by omega
  have hU0 : ¬ (c.ultraLongPressDuration = 0) := by omega
  have hLb : ¬ (c.longPressDuration ≤ tb - ta) := by omega
  have hUb : ¬ (c.ultraLongPressDuration ≤ tb - ta) := by omega
  have hLd : ¬ (c.longPressDuration ≤ td - tc) := by omega
  have hUd : ¬ (c.ultraLongPressDuration ≤ td - tc) := by omega
  have hW0 : ¬ (c.doubleClickWindow < tb - tb) := by omega
  have hWc : ¬ (c.doubleClickWindow < tc - tb) := by omega
  have hrun : run c s0 [ { pos := p, level := LOW, time := ta },
                { pos := p, level := HIGH, time := tb },
                { pos := p, level := LOW, time := tc },
                { pos := p, level := HIGH, time := td } ] =
      update c (update c (update c (update c s0
        { pos := p, level := LOW, time := ta })
        { pos := p, level := HIGH, time := tb })
        { pos := p, level := LOW, time := tc })
        { pos := p, level := HIGH, time := td } := rfl
  have s1eq : update c s0 { pos := p, level := LOW, time := ta } =
      { s0 with pressStartTime := ta, lastButtonState := LOW,
                longPressBuzzed := false, ultraLongPressNotified := false,
                pressAndRotateActive := false } := by
    rw [update, processEncoder_noRot s0 _ hp]
    simp [processButton, pressEdgeStep, releaseEdgeStep, ongoingPressStep,
      doubleClickTimeoutStep, q6, q8, hL0, hU0]
  have s2eq : update c
      { s0 with pressStartTime := ta, lastButtonState := LOW,
                longPressBuzzed := false, ultraLongPressNotified := false,
                pressAndRotateActive := false }
      { pos := p, level := HIGH, time := tb } =
      { s0 with pressStartTime := ta, lastPressDuration := tb - ta,
                waitingForDoubleClick := true, lastClickTime := tb,
                lastButtonState := HIGH, longPressBuzzed := false,
                ultraLongPressNotified := false,
                pressAndRotateActive := false } := by
    rw [update, processEncoder_noRot _ _ hp]
    simp [processButton, pressEdgeStep, releaseEdgeStep, classifyRelease,
      ongoingPressStep, doubleClickTimeoutStep, q6, hd1, hLb, hUb, hW0]
  have s3eq : update c
      { s0 with pressStartTime := ta, lastPressDuration := tb - ta,
                waitingForDoubleClick := true, lastClickTime := tb,
                lastButtonState := HIGH, longPressBuzzed := false,
                ultraLongPressNotified := false,
                pressAndRotateActive := false }
      { pos := p, level := LOW, time := tc } =
      { s0 with pressStartTime := tc, lastPressDuration := tb - ta,
                waitingForDoubleClick := true, lastClickTime := tb,
                lastButtonState := LOW, longPressBuzzed := false,
                ultraLongPressNotified := false,
                pressAndRotateActive := false } := by
    rw [update, processEncoder_noRot _ _ hp]
    simp [processButton, pressEdgeStep, releaseEdgeStep, classifyRelease,
      ongoingPressStep, doubleClickTimeoutStep, hL0, hU0, hWc]
  rw [hrun, s1eq, s2eq, s3eq]
  rw [update, processEncoder_noRot _ _ hp]
  refine ⟨?_, ?_, ?_, ?_⟩ <;>
    simp [processButton, pressEdgeStep, releaseEdgeStep, classifyRelease,
      ongoingPressStep, doubleClickTimeoutStep, hd2, hLd, hUd]

set_option maxHeartbeats 1600000 in
theorem c4_scenario_b (c : EncoderConfig) (p : Int) (s0 : EMState)
    (ta tb tm tc td te : Nat) (hq : Quiescent s0)
    (hp : p.tdiv 4 = s0.lastValue)
    (hcl : c.clickTimeout ≤ c.longPressDuration)
    (hlu : c.longPressDuration ≤ c.ultraLongPressDuration)
    (_h1 : ta ≤ tb) (_h2 : tb ≤ tm) (_h3 : tm ≤ tc) (_h4 : tc ≤ td)
    (_h5 : td ≤ te)
    (hd1 : tb - ta < c.clickTimeout)
    (hd2 : td - tc < c.clickTimeout)
    (hgap1 : c.doubleClickWindow < tm - tb)
    (hgap2 : c.doubleClickWindow < te - td) :
    (run c s0 [ { pos := p, level := LOW, time := ta },
                { pos := p, level := HIGH, time := tb },
                { pos := p, level := HIGH, time := tm },
                { pos := p, level := LOW, time := tc },
                { pos := p, level := HIGH, time := td },
                { pos := p, level := HIGH, time := te } ]
     ).clickPending = true ∧
    (run c s0 [ { pos := p, level := LOW, time := ta },
                { pos := p, level := HIGH, time := tb },
                { pos := p, level := HIGH, time := tm },
                { pos := p, level := LOW, time := tc },
                { pos := p, level := HIGH, time := td },
                { pos := p, level := HIGH, time := te } ]
     ).doubleClickPending = false ∧
    (run c s0 [ { pos := p, level := LOW, time := ta },
                { pos := p, level := HIGH, time := tb },
                { pos := p, level := HIGH, time := tm },
                { pos := p, level := LOW, time := tc },
                { pos := p, level := HIGH, time := td },
                { pos := p, level := HIGH, time := te } ]
     ).clickRaises = s0.clickRaises + 2 ∧
    (run c s0 [ { pos := p, level := LOW, time := ta },
                { pos := p, level := HIGH, time := tb },
                { pos := p, level := HIGH, time := tm },
                { pos := p, level := LOW, time := tc },
                { pos := p, level := HIGH, time := td },
                { pos := p, level := HIGH, time := te } ]
     ).doubleClickRaises = s0.doubleClickRaises := by
  obtain ⟨q1, q2, q3, q4, q5, q6, q7, q8⟩ := hq
  have hL0 : ¬ (c.longPressDuration = 0) := by omega
  have hU0 : ¬ (c.ultraLongPressDuration = 0) := by omega
  have hLb : ¬ (c.longPressDuration ≤ tb - ta) := by omega
  have hUb : ¬ (c.ultraLongPressDuration ≤ tb - ta) := by omega
  have hLd : ¬ (c.longPressDuration ≤ td - tc) := by omega
  have hUd : ¬ (c.ultraLongPressDuration ≤ td - tc) := by omega
  have hW0 : ¬ (c.doubleClickWindow < tb - tb) := by omega
  have hWd : ¬ (c.doubleClickWindow < td - td) := by omega
  have hrun : run c s0 [ { pos := p, level := LOW, time := ta },
                { pos := p, level := HIGH, time := tb },
                { pos := p, level := HIGH, time := tm },
                { pos := p, level := LOW, time := tc },
                { pos := p, level := HIGH, time := td },
                { pos := p, level := HIGH, time := te } ] =
      update c (update c (update c (update c (update c (update c s0
        { pos := p, level := LOW, time := ta })
        { pos := p, level := HIGH, time := tb })
        { pos := p, level := HIGH, time := tm })
        { pos := p, level := LOW, time := tc })
        { pos := p, level := HIGH, time := td })
        { pos := p, level := HIGH, time := te } := rfl
  have s1eq : update c s0 { pos := p, level := LOW, time := ta } =
      { s0 with pressStartTime := ta, lastButtonState := LOW,
                longPressBuzzed := false, ultraLongPressNotified := false,
                pressAndRotateActive := false } := by
    rw [update, processEncoder_noRot s0 _ hp]
    simp [processButton, pressEdgeStep, releaseEdgeStep, ongoingPressStep,
      doubleClickTimeoutStep, q6, q8, hL0, hU0]
  have s2eq : update c
      { s0 with pressStartTime := ta, lastButtonState := LOW,
                longPressBuzzed := false, ultraLongPressNotified := false,
                pressAndRotateActive := false }
      { pos := p, level := HIGH, time := tb } =
      { s0 with pressStartTime := ta, lastPressDuration := tb - ta,
                waitingForDoubleClick := true, lastClickTime := tb,
                lastButtonState := HIGH, longPressBuzzed := false,
                ultraLongPressNotified := false,
                pressAndRotateActive := false } := by
    rw [update, processEncoder_noRot _ _ hp]
    simp [processButton, pressEdgeStep, releaseEdgeStep, classifyRelease,
      ongoingPressStep, doubleClickTimeoutStep, q6, hd1, hLb, hUb, hW0]
  have s3eq : update c
      { s0 with pressStartTime := ta, lastPressDuration := tb - ta,
                waitingForDoubleClick := true, lastClickTime := tb,
                lastButtonState := HIGH, longPressBuzzed := false,
                ultraLongPressNotified := false,
                pressAndRotateActive := false }
      { pos := p, level := HIGH, time := tm } =
      { s0 with pressStartTime := ta, lastPressDuration := tb - ta,
                waitingForDoubleClick := false, lastClickTime := tb,
                lastButtonState := HIGH, longPressBuzzed := false,
                ultraLongPressNotified := false,
                pressAndRotateActive := false, clickPending := true,
                clickRaises := s0.clickRaises + 1 } := by
    rw [update, processEncoder_noRot _ _ hp]
    simp [processButton, pressEdgeStep, releaseEdgeStep, classifyRelease,
      ongoingPressStep, doubleClickTimeoutStep, hgap1]
  have s4eq : update c
      { s0 with pressStartTime := ta, lastPressDuration := tb - ta,
                waitingForDoubleClick := false, lastClickTime := tb,
                lastButtonState := HIGH, longPressBuzzed := false,
                ultraLongPressNotified := false,
                pressAndRotateActive := false, clickPending := true,
                clickRaises := s0.clickRaises + 1 }
      { pos := p, level := LOW, time := tc } =
      { s0 with pressStartTime := tc, lastPressDuration := tb - ta,
                waitingForDoubleClick := false, lastClickTime := tb,
                lastButtonState := LOW, longPressBuzzed := false,
                ultraLongPressNotified := false,
                pressAndRotateActive := false, clickPending := true,
                clickRaises := s0.clickRaises + 1 } := by
    rw [update, processEncoder_noRot _ _ hp]
    simp [processButton, pressEdgeStep, releaseEdgeStep, classifyRelease,
      ongoingPressStep, doubleClickTimeoutStep, hL0, hU0]
  have s5eq : update c
      { s0 with pressStartTime := tc, lastPressDuration := tb - ta,
                waitingForDoubleClick := false, lastClickTime := tb,
                lastButtonState := LOW, longPressBuzzed := false,
                ultraLongPressNotified := false,
                pressAndRotateActive := false, clickPending := true,
                clickRaises := s0.clickRaises + 1 }
      { pos := p, level := HIGH, time := td } =
      { s0 with pressStartTime := tc, lastPressDuration := td - tc,
                waitingForDoubleClick := true, lastClickTime := td,
                lastButtonState := HIGH, longPressBuzzed := false,
                ultraLongPressNotified := false,
                pressAndRotateActive := false, clickPending := true,
                clickRaises := s0.clickRaises + 1 } := by
    rw [update, processEncoder_noRot _ _ hp]
    simp [processButton, pressEdgeStep, releaseEdgeStep, classifyRelease,
      ongoingPressStep, doubleClickTimeoutStep, hd2, hLd, hUd, hWd]
  rw [hrun, s1eq, s2eq, s3eq, s4eq, s5eq]
  rw [update, processEncoder_noRot _ _ hp]
  refine ⟨?_, ?_, ?_, ?_⟩ <;>
    simp [processButton, pressEdgeStep, releaseEdgeStep, classifyRelease,
      ongoingPressStep, doubleClickTimeoutStep, hgap2, q2]

/-- C4: two releases each shorter than `T_click`.  If the second release
happens within the pairing window of the first, exactly one double click
and no single click results; if the window expires at an observed tick
before the second release, and again after it, the timeout check resolves
each press as a single click: two single-click raises, no double click. -/
theorem c4_double_click_pairing :
    (∀ (c : EncoderConfig) (p : Int) (s0 : EMState) (ta tb tc td : Nat),
      Quiescent s0 → p.tdiv 4 = s0.lastValue →
      c.clickTimeout ≤ c.longPressDuration →
      c.longPressDuration ≤ c.ultraLongPressDuration →
      ta ≤ tb → tb ≤ tc → tc ≤ td →
      tb - ta < c.clickTimeout → td - tc < c.clickTimeout →
      td - tb ≤ c.doubleClickWindow →
      (run c s0 [ { pos := p, level := LOW, time := ta },
                  { pos := p, level := HIGH, time := tb },
                  { pos := p, level := LOW, time := tc },
                  { pos := p, level := HIGH, time := td } ]
       ).doubleClickPending = true ∧
      (run c s0 [ { pos := p, level := LOW, time := ta },
                  { pos := p, level := HIGH, time := tb },
                  { pos := p, level := LOW, time := tc },
                  { pos := p, level := HIGH, time := td } ]
       ).clickPending = false ∧
      (run c s0 [ { pos := p, level := LOW, time := ta },
                  { pos := p, level := HIGH, time := tb },
                  { pos := p, level := LOW, time := tc },
                  { pos := p, level := HIGH, time := td } ]
       ).doubleClickRaises = s0.doubleClickRaises + 1 ∧
      (run c s0 [ { pos := p, level := LOW, time := ta },
                  { pos := p, level := HIGH, time := tb },
                  { pos := p, level := LOW, time := tc },
                  { pos := p, level := HIGH, time := td } ]
       ).clickRaises = s0.clickRaises) ∧
    (∀ (c : EncoderConfig) (p : Int) (s0 : EMState) (ta tb tm tc td te : Nat),
      Quiescent s0 → p.tdiv 4 = s0.lastValue →
      c.clickTimeout ≤ c.longPressDuration →
      c.longPressDuration ≤ c.ultraLongPressDuration →
      ta ≤ tb → tb ≤ tm → tm ≤ tc → tc ≤ td → td ≤ te →
      tb - ta < c.clickTimeout → td - tc < c.clickTimeout →
      c.doubleClickWindow < tm - tb → c.doubleClickWindow < te - td →
      (run c s0 [ { pos := p, level := LOW, time := ta },
                  { pos := p, level := HIGH, time := tb },
                  { pos := p, level := HIGH, time := tm },
                  { pos := p, level := LOW, time := tc },
                  { pos := p, level := HIGH, time := td },
                  { pos := p, level := HIGH, time := te } ]
       ).clickPending = true ∧
      (run c s0 [ { pos := p, level := LOW, time := ta },
                  { pos := p, level := HIGH, time := tb },
                  { pos := p, level := HIGH, time := tm },
                  { pos := p, level := LOW, time := tc },
                  { pos := p, level := HIGH, time := td },
                  { pos := p, level := HIGH, time := te } ]
       ).doubleClickPending = false ∧
      (run c s0 [ { pos := p, level := LOW, time := ta },
                  { pos := p, level := HIGH, time := tb },
                  { pos := p, level := HIGH, time := tm },
                  { pos := p, level := LOW, time := tc },
                  { pos := p, level := HIGH, time := td },
                  { pos := p, level := HIGH, time := te } ]
       ).clickRaises = s0.clickRaises + 2 ∧
      (run c s0 [ { pos := p, level := LOW, time := ta },
                  { pos := p, level := HIGH, time := tb },
                  { pos := p, level := HIGH, time := tm },
                  { pos := p, level := LOW, time := tc },
                  { pos := p, level := HIGH, time := td },
                  { pos := p, level := HIGH, time := te } ]
       ).doubleClickRaises = s0.doubleClickRaises) :=
  ⟨fun c p s0 ta tb tc td hq hp hcl hlu h1 h2 h3 hd1 hd2 hw =>
    c4_scenario_a c p s0 ta tb tc td hq hp hcl hlu h1 h2 h3 hd1 hd2 hw,
   fun c p s0 ta tb tm tc td te hq hp hcl hlu h1 h2 h3 h4 h5 hd1 hd2 hg1
       hg2 =>
    c4_scenario_b c p s0 ta tb tm tc td te hq hp hcl hlu h1 h2 h3 h4 h5
      hd1 hd2 hg1 hg2⟩

/-- C4 witness: with the default thresholds, clicks released at 100 ms
and 400 ms pair into one double click; with a 600 ms gap observed between
them (and after the second) each resolves as a single click. -/
theorem c4_witness :
    (run defaultConfig initState
      [ { pos := 0, level := LOW, time := 0 },
        { pos := 0, level := HIGH, time := 100 },
        { pos := 0, level := LOW, time := 300 },
        { pos := 0, level := HIGH, time := 400 } ]
     ).doubleClickRaises = initState.doubleClickRaises + 1 ∧
    (run defaultConfig initState
      [ { pos := 0, level := LOW, time := 0 },
        { pos := 0, level := HIGH, time := 100 },
        { pos := 0, level := HIGH, time := 700 },
        { pos := 0, level := LOW, time := 800 },
        { pos := 0, level := HIGH, time := 900 },
        { pos := 0, level := HIGH, time := 1500 } ]
     ).clickRaises = initState.clickRaises + 2 :=
  ⟨(c4_double_click_pairing.1 defaultConfig 0 initState 0 100 300 400
      (by decide) (by decide) (by decide) (by decide) (by decide)
      (by decide) (by decide) (by decide) (by decide) (by decide)).2.2.1,
   (c4_double_click_pairing.2 defaultConfig 0 initState 0 100 700 800 900
      1500 (by decide) (by decide) (by decide) (by decide) (by decide)
      (by decide) (by decide) (by decide) (by decide) (by decide)
      (by decide) (by decide) (by decide)).2.2.1⟩

theorem bootCompleteCount_merge (a b : CoreOutput) :
    bootCompleteCount (mergeOutput a b) =
      bootCompleteCount a + bootCompleteCount b := by
  simp [mergeOutput, bootCompleteCount, List.filter_append]

theorem bootCompleteCount_handleWiFi (s : CoreState) (i : CoordInput) :
    bootCompleteCount (handleWiFiConnection s i).2 = 0 := by
  obtain ⟨now, ws, hac, ssid, apip⟩ := i
  cases ws <;> simp only [handleWiFiConnection] <;> split_ifs <;>
    simp [mergeOutput, bootCompleteCount]

theorem handleWiFi_notBooting (s : CoreState) (i : CoordInput)
    (h : s.currentState ≠ SystemState.BOOTING) :
    (handleWiFiConnection s i).1.currentState ≠ SystemState.BOOTING := by
  obtain ⟨now, ws, hac, ssid, apip⟩ := i
  cases ws <;> simp only [handleWiFiConnection] <;> split_ifs <;>
    simp_all [setState] <;> split_ifs <;> simp_all

theorem coordinationLoop_notBooting (wr : Bool) (s : CoreState)
    (i : CoordInput) (hb : s.currentState ≠ SystemState.BOOTING) :
    (coordinationLoop wr s i).1.currentState ≠ SystemState.BOOTING ∧
    bootCompleteCount (coordinationLoop wr s i).2 = 0 := by
  have hw := handleWiFi_notBooting s i hb
  have hwc := bootCompleteCount_handleWiFi s i
  simp only [coordinationLoop, hb, if_false, if_neg hb]
  constructor
  · split <;> simp_all [start, setState]
  · rw [bootCompleteCount_merge, bootCompleteCount_merge, hwc]
    simp [bootCompleteCount]

theorem coordRun_notBooting (wr : Bool) :
    ∀ (l : List CoordInput) (s : CoreState),
    s.currentState ≠ SystemState.BOOTING → (coordRun wr s l).2 = 0 := by
  intro l
  induction l with
  | nil => intro s _; rfl
  | cons i r ih =>
      intro s hb
      have h := coordinationLoop_notBooting wr s i hb
      simp only [coordRun]
      rw [h.2, ih _ h.1]

theorem handleBootingState_fired (wr : Bool) (s : CoreState) (now : Nat)
    (hb : s.currentState = SystemState.BOOTING) (hn : 4000 ≤ now) :
    bootCompleteCount (handleBootingState wr s now).2 = 1 ∧
    (handleBootingState wr s now).1.currentState ≠ SystemState.BOOTING := by
  cases wr <;>
    simp [handleBootingState, hn, setState, hb, bootCompleteCount]

theorem coordinationLoop_bootTick (wr : Bool) (s : CoreState)
    (i : CoordInput) (hb : s.currentState = SystemState.BOOTING)
    (hn : 4000 ≤ i.now) :
    bootCompleteCount (coordinationLoop wr s i).2 = 1 ∧
    (coordinationLoop wr s i).1.currentState ≠ SystemState.BOOTING := by
  have hf := handleBootingState_fired wr s i.now hb hn
  have hw := handleWiFi_notBooting (handleBootingState wr s i.now).1 i hf.2
  have hwc := bootCompleteCount_handleWiFi (handleBootingState wr s i.now).1 i
  simp only [coordinationLoop, hb, if_pos]
  constructor
  · rw [bootCompleteCount_merge, bootCompleteCount_merge, hf.1, hwc]
    simp [bootCompleteCount]
  · split <;> simp_all [start, setState]

theorem coordinationLoop_preBoot (wr : Bool) (s : CoreState)
    (i : CoordInput) (hb : s.currentState = SystemState.BOOTING)
    (hl : s.lastWiFiState = WiFiState.DISCONNECTED)
    (hn : i.now < 4000) (hw : i.wifiState = WiFiState.DISCONNECTED) :
    coordinationLoop wr s i = (s, {}) := by
  have hn' : ¬ (4000 ≤ i.now) := by omega
  simp [coordinationLoop, handleBootingState, handleWiFiConnection,
    mergeOutput, start, hb, hl, hn', hw]

/-- C7: while BOOTING, the first coordination tick whose clock has
reached the 4000 ms boot delay transitions to INITIALIZING and, with
networking required, emits the display-wifi-connecting event and calls
`wifi->init()` (without networking it goes straight to READY and wakes
the display); and over any whole boot run -- ticks before the delay
seeing a quiet (DISCONNECTED) network, then the firing tick, then
anything at all -- exactly one BOOTING_COMPLETE application event is
emitted. -/
theorem c7_boot_sequence :
    (∀ (s : CoreState) (now : Nat), s.currentState = SystemState.BOOTING →
      4000 ≤ now →
      handleBootingState true s now =
        ({ s with currentState := SystemState.INITIALIZING,
                  stateStartTime := now },
         { uiEvents := [{ type := EventType.DISPLAY_WIFI_CONNECTING }],
           appEvents := [{ type := EventType.BOOTING_COMPLETE }],
           wifiInitCalled := true }) ∧
      handleBootingState false s now =
        ({ s with currentState := SystemState.READY,
                  stateStartTime := now },
         { uiEvents := [{ type := EventType.DISPLAY_WAKE_UP }],
           appEvents := [{ type := EventType.BOOTING_COMPLETE }] })) ∧
    (∀ (wr : Bool) (s0 : CoreState) (pre : List CoordInput)
        (i : CoordInput) (post : List CoordInput),
      s0.currentState = SystemState.BOOTING →
      s0.lastWiFiState = WiFiState.DISCONNECTED →
      (∀ j ∈ pre, j.now < 4000 ∧ j.wifiState = WiFiState.DISCONNECTED) →
      4000 ≤ i.now →
      (coordRun wr s0 (pre ++ i :: post)).2 = 1) := by
  constructor
  · intro s now hb hn
    constructor <;> simp [handleBootingState, hn, setState, hb]
  · intro wr s0 pre i post hb hl hpre hn
    induction pre with
    | nil =>
        have ht := coordinationLoop_bootTick wr s0 i hb hn
        have hrest := coordRun_notBooting wr post
          (coordinationLoop wr s0 i).1 ht.2
        simp only [List.nil_append, coordRun]
        rw [ht.1, hrest]
    | cons j r ih =>
        have hj := hpre j (by simp)
        have hstep := coordinationLoop_preBoot wr s0 j hb hl hj.1 hj.2
        simp only [List.cons_append, coordRun, hstep]
        have : bootCompleteCount ({} : CoreOutput) = 0 := rfl
        rw [this]
        simpa using ih (fun j' hj' => hpre j' (by simp [hj']))

/-- C7 witness: a three-tick boot (one early tick, the firing tick at
4000 ms, one later tick with the network connecting) emits exactly one
BOOTING_COMPLETE event. -/
theorem c7_witness :
    (coordRun true initCoreState
      [ { now := 0, wifiState := WiFiState.DISCONNECTED },
        { now := 4000, wifiState := WiFiState.CONNECTING },
        { now := 4050, wifiState := WiFiState.CONNECTED } ]).2 = 1 := by
  have h := c7_boot_sequence.2 true initCoreState
    [ { now := 0, wifiState := WiFiState.DISCONNECTED } ]
    { now := 4000, wifiState := WiFiState.CONNECTING }
    [ { now := 4050, wifiState := WiFiState.CONNECTED } ]
    (by decide) (by decide) (by decide) (by decide)
  simpa using h

theorem ongoingPressStep_frame (c : EncoderConfig) (s : EMState)
    (i : EncoderInput) :
    (ongoingPressStep c s i).lastValue = s.lastValue ∧
    (ongoingPressStep c s i).movement = s.movement ∧
    (ongoingPressStep c s i).movementPending = s.movementPending ∧
    (ongoingPressStep c s i).lastButtonState = s.lastButtonState ∧
    (ongoingPressStep c s i).pressStartTime = s.pressStartTime ∧
    (ongoingPressStep c s i).lastPressDuration = s.lastPressDuration ∧
    (ongoingPressStep c s i).pressAndRotateActive = s.pressAndRotateActive ∧
    (ongoingPressStep c s i).waitingForDoubleClick =
      s.waitingForDoubleClick ∧
    (ongoingPressStep c s i).lastClickTime = s.lastClickTime ∧
    (ongoingPressStep c s i).clickPending = s.clickPending ∧
    (ongoingPressStep c s i).doubleClickPending = s.doubleClickPending ∧
    (ongoingPressStep c s i).longPressPending = s.longPressPending ∧
    (ongoingPressStep c s i).pressAndRotatePending =
      s.pressAndRotatePending := by
  simp only [ongoingPressStep]
  split
  · split <;> split <;> simp_all
  · split <;> simp_all

theorem ongoingPressStep_ultra (c : EncoderConfig) (s : EMState)
    (i : EncoderInput) :
    ((ongoingPressStep c s i).ultraLongPressPending =
        s.ultraLongPressPending ∧
      (ongoingPressStep c s i).ultraLongPressNotified =
        s.ultraLongPressNotified) ∨
    (s.pressAndRotateActive = false ∧
      c.ultraLongPressDuration ≤ i.time - s.pressStartTime ∧
      (ongoingPressStep c s i).ultraLongPressPending = true ∧
      (ongoingPressStep c s i).ultraLongPressNotified = true) ∨
    ((ongoingPressStep c s i).ultraLongPressPending =
        s.ultraLongPressPending ∧
      (ongoingPressStep c s i).ultraLongPressNotified = false ∧
      (i.level = LOW → s.pressAndRotateActive = true)) := by
  simp only [ongoingPressStep]
  split
  · rename_i hcnd
    split <;> split <;> simp_all [hcnd.2]
  · rename_i hcnd
    split <;> simp_all

theorem processButton_midHold (c : EncoderConfig) (s : EMState)
    (i : EncoderInput) (hlb : s.lastButtonState = LOW)
    (hlv : i.level = LOW) (hw : s.waitingForDoubleClick = false) :
    processButton c s i =
      { ongoingPressStep c s i with lastButtonState := LOW } := by
  have hfw := (ongoingPressStep_frame c s i).2.2.2.2.2.2.2.1
  unfold processButton pressEdgeStep releaseEdgeStep doubleClickTimeoutStep
  simp [hlb, hlv, hfw, hw]

theorem holdInv_processEncoder (c : EncoderConfig) {t1 tp : Nat}
    {s : EMState} (i : EncoderInput) (hInv : HoldInv c t1 tp s) :
    HoldInv c t1 tp (processEncoder s i) := by
  obtain ⟨v1, v2, v3, v4, v5, v6, v7, v8, v9, v10⟩ := hInv
  by_cases hrot : i.pos.tdiv 4 = s.lastValue
  · rw [processEncoder_noRot s i hrot]
    exact ⟨v1, v2, v3, v4, v5, v6, v7, v8, v9, v10⟩
  · by_cases hact : s.pressAndRotateActive = true
    · unfold HoldInv processEncoder
      simp [hrot, hact, v1, v2, v3, v4, v5, v6, v7, v10, (v8 hact).1,
        (v8 hact).2]
    · by_cases hlv : i.level = LOW
      · unfold HoldInv processEncoder
        simp [hrot, hact, hlv, v1, v2, v3, v4, v5, v6, v7]
      · unfold HoldInv processEncoder
        simp [hrot, hact, hlv, v1, v2, v3, v4, v5, v6, v7, v8, v9]
        exact v10

theorem holdInv_processButton (c : EncoderConfig) {t1 tp : Nat}
    {s : EMState} (i : EncoderInput) (hInv : HoldInv c t1 tp s)
    (ht : tp ≤ i.time) (hlv : i.level = LOW) :
    HoldInv c t1 i.time (processButton c s i) := by
  obtain ⟨v1, v2, v3, v4, v5, v6, v7, v8, v9, v10⟩ := hInv
  rw [processButton_midHold c s i v1 hlv v4]
  have hf := ongoingPressStep_frame c s i
  have hu := ongoingPressStep_ultra c s i
  have hmono : tp - t1 ≤ i.time - t1 := Nat.sub_le_sub_right ht t1
  refine ⟨by simp, ?_, Nat.le_trans v3 ht, ?_, ?_, ?_, ?_, ?_, ?_, ?_⟩
  · simp [hf.2.2.2.2.1, v2]
  · simp [hf.2.2.2.2.2.2.2.1, v4]
  · simp [hf.2.2.2.2.2.2.2.2.2.1, v5]
  · simp [hf.2.2.2.2.2.2.2.2.2.2.1, v6]
  · simp [hf.2.2.2.2.2.2.2.2.2.2.2.1, v7]
  · intro h8
    simp only [hf.2.2.2.2.2.2.1] at h8
    constructor
    · simp [hf.2.2.2.2.2.2.2.2.2.2.2.2, (v8 h8).1]
    · rcases hu with ⟨e1, _⟩ | ⟨ha, _⟩ | ⟨e1, _⟩
      · simp [e1, (v8 h8).2]
      · rw [h8] at ha; cases ha
      · simp [e1, (v8 h8).2]
  · intro h9
    simp only [hf.2.2.2.2.2.2.1] at h9
    simp [hf.2.2.2.2.2.2.2.2.2.2.2.2, v9 h9]
  · intro h10
    simp only [] at h10
    rcases hu with ⟨e1, e2⟩ | ⟨_, hb, hc, hd⟩ | ⟨e1, e2, e3⟩
    · simp only [e1] at h10
      rcases v10 h10 with ⟨w1, w2⟩
      refine ⟨by simp [e2, w1], by omega⟩
    · refine ⟨by simp [hd], ?_⟩
      rw [v2] at hb
      exact hb
    · simp only [e1] at h10
      have ha := e3 hlv
      have := (v8 ha).2
      rw [h10] at this; cases this

theorem holdInv_step (c : EncoderConfig) {t1 tp : Nat} {s : EMState}
    (i : EncoderInput) (hInv : HoldInv c t1 tp s) (ht : tp ≤ i.time)
    (hlv : i.level = LOW) : HoldInv c t1 i.time (update c s i) :=
  holdInv_processButton c i (holdInv_processEncoder c i hInv) ht hlv

set_option maxHeartbeats 1600000 in
theorem holdInv_first (c : EncoderConfig) (s0 : EMState) (f : EncoderInput)
    (hq : Quiescent s0) (hlv : f.level = LOW)
    (hrot : f.pos.tdiv 4 = s0.lastValue) :
    HoldInv c f.time f.time (update c s0 f) := by
  obtain ⟨q1, q2, q3, q4, q5, q6, q7, q8⟩ := hq
  rw [update, processEncoder_noRot s0 f hrot]
  unfold HoldInv
  by_cases hU0 : c.ultraLongPressDuration = 0 <;>
    by_cases hL0 : c.longPressDuration = 0 <;>
      simp [processButton, pressEdgeStep, releaseEdgeStep, ongoingPressStep,
        doubleClickTimeoutStep, hlv, q1, q2, q3, q4, q5, q6, q7, q8, hU0,
        hL0]

theorem holdInv_run (c : EncoderConfig) (t1 : Nat) :
    ∀ (mids : List EncoderInput) (s : EMState) (tp : Nat),
    HoldInv c t1 tp s → chainFrom tp mids →
    (∀ i ∈ mids, i.level = LOW) →
    HoldInv c t1 (endT tp mids) (run c s mids) := by
  intro mids
  induction mids with
  | nil => intro s tp hInv _ _; exact hInv
  | cons a r ih =>
      intro s tp hInv hc hlv
      have ha := holdInv_step c a hInv hc.1 (hlv a (by simp))
      show HoldInv c t1 (endT a.time r) (run c (update c s a) r)
      exact ih (update c s a) a.time ha hc.2
        (fun i hi => hlv i (by simp [hi]))

theorem pressEdgeStep_high (s : EMState) (i : EncoderInput)
    (hlv : i.level = HIGH) : pressEdgeStep s i = s := by
  simp [pressEdgeStep, hlv]

theorem releaseEdgeStep_fire (c : EncoderConfig) (s : EMState)
    (i : EncoderInput) (hlb : s.lastButtonState = LOW)
    (hlv : i.level = HIGH) :
    releaseEdgeStep c s i = classifyRelease c
      { s with lastPressDuration := i.time - s.pressStartTime }
      (i.time - s.pressStartTime) i.time := by
  simp [releaseEdgeStep, hlb, hlv]

theorem ongoingPressStep_high (c : EncoderConfig) (s : EMState)
    (i : EncoderInput) (hlv : i.level = HIGH) :
    ongoingPressStep c s i =
      if s.ultraLongPressNotified = true ∧
          s.lastPressDuration < c.ultraLongPressDuration then
        { s with ultraLongPressNotified := false }
      else s := by
  simp [ongoingPressStep, hlv]

theorem doubleClickTimeoutStep_noWait (c : EncoderConfig) (s : EMState)
    (i : EncoderInput) (h : s.waitingForDoubleClick = false) :
    doubleClickTimeoutStep c s i = s := by
  simp [doubleClickTimeoutStep, h]

theorem doubleClickTimeoutStep_inWindow (c : EncoderConfig) (s : EMState)
    (i : EncoderInput)
    (h : ¬ (c.doubleClickWindow < i.time - s.lastClickTime)) :
    doubleClickTimeoutStep c s i = s := by
  simp [doubleClickTimeoutStep, h]

theorem processButton_releaseTick (c : EncoderConfig) (s : EMState)
    (i : EncoderInput) (hlv : i.level = HIGH) :
    processButton c s i =
      { doubleClickTimeoutStep c
          (ongoingPressStep c (releaseEdgeStep c s i) i) i
        with lastButtonState := HIGH } := by
  unfold processButton
  rw [pressEdgeStep_high s i hlv, hlv]

theorem classifyRelease_active (c : EncoderConfig) (s : EMState) (d t : Nat)
    (h : s.pressAndRotateActive = true) :
    classifyRelease c s d t = { s with pressAndRotateActive := false } := by
  simp [classifyRelease, h]

theorem classifyRelease_ultra_raise (c : EncoderConfig) (s : EMState)
    (d t : Nat) (h1 : s.pressAndRotateActive = false)
    (h2 : c.ultraLongPressDuration ≤ d)
    (h3 : s.ultraLongPressNotified = false) :
    classifyRelease c s d t =
      { s with ultraLongPressPending := true, ultraLongPressNotified := true,
               ultraLongPressRaises := s.ultraLongPressRaises + 1 } := by
  simp [classifyRelease, h1, h2, h3]

theorem classifyRelease_ultra_skip (c : EncoderConfig) (s : EMState)
    (d t : Nat) (h1 : s.pressAndRotateActive = false)
    (h2 : c.ultraLongPressDuration ≤ d)
    (h3 : s.ultraLongPressNotified = true) :
    classifyRelease c s d t = s := by
  simp [classifyRelease, h1, h2, h3]

theorem classifyRelease_long (c : EncoderConfig) (s : EMState) (d t : Nat)
    (h1 : s.pressAndRotateActive = false)
    (h2 : ¬ (c.ultraLongPressDuration ≤ d))
    (h3 : c.longPressDuration ≤ d) :
    classifyRelease c s d t =
      { s with longPressPending := true,
               longPressRaises := s.longPressRaises + 1 } := by
  simp [classifyRelease, h1, h2, h3]

theorem classifyRelease_click_wait (c : EncoderConfig) (s : EMState)
    (d t : Nat) (h1 : s.pressAndRotateActive = false)
    (h2 : ¬ (c.ultraLongPressDuration ≤ d))
    (h3 : ¬ (c.longPressDuration ≤ d)) (h4 : d < c.clickTimeout)
    (h5 : s.waitingForDoubleClick = false) :
    classifyRelease c s d t =
      { s with waitingForDoubleClick := true, lastClickTime := t } := by
  simp [classifyRelease, h1, h2, h3, h4, h5]

theorem classifyRelease_dead (c : EncoderConfig) (s : EMState) (d t : Nat)
    (h1 : s.pressAndRotateActive = false)
    (h2 : ¬ (c.ultraLongPressDuration ≤ d))
    (h3 : ¬ (c.longPressDuration ≤ d)) (h4 : ¬ (d < c.clickTimeout)) :
    classifyRelease c s d t = s := by
  simp [classifyRelease, h1, h2, h3, h4]

theorem holdInv_release (c : EncoderConfig) {t1 tp : Nat} {s : EMState}
    (i : EncoderInput) (hInv : HoldInv c t1 tp s) (ht : tp ≤ i.time)
    (hlv : i.level = HIGH) : pendingCount (update c s i) ≤ 1 := by
  have hInv' := holdInv_processEncoder c i hInv
  obtain ⟨v1, v2, v3, v4, v5, v6, v7, v8, v9, v10⟩ := hInv'
  have hmono : tp - t1 ≤ i.time - t1 := Nat.sub_le_sub_right ht t1
  rw [update, processButton_releaseTick c (processEncoder s i) i hlv,
    releaseEdgeStep_fire c (processEncoder s i) i v1 hlv, v2]
  by_cases hact : (processEncoder s i).pressAndRotateActive = true
  · have h8 := v8 hact
    have e1 : classifyRelease c
        { processEncoder s i with
          pressStartTime := t1
          lastPressDuration := i.time - t1 } (i.time - t1) i.time =
        { processEncoder s i with
          pressStartTime := t1
          lastPressDuration := i.time - t1
          pressAndRotateActive := false } :=
      classifyRelease_active _ _ _ _ hact
    rw [e1, ongoingPressStep_high _ _ _ hlv]
    split
    all_goals rw [doubleClickTimeoutStep_noWait]
    · simp [pendingCount, v5, v6, v7, h8.1, h8.2]
    · simp [v4]
    · simp [pendingCount, v5, v6, v7, h8.1, h8.2]
    · simp [v4]
  · have hact' : (processEncoder s i).pressAndRotateActive = false := by
      simpa using hact
    have h9 := v9 hact'
    by_cases hdu : c.ultraLongPressDuration ≤ i.time - t1
    · by_cases hnt : (processEncoder s i).ultraLongPressNotified = true
      · have e1 : classifyRelease c
            { processEncoder s i with
              pressStartTime := t1
              lastPressDuration := i.time - t1 } (i.time - t1) i.time =
            { processEncoder s i with
              pressStartTime := t1
              lastPressDuration := i.time - t1 } :=
          classifyRelease_ultra_skip _ _ _ _ hact' hdu hnt
        rw [e1, ongoingPressStep_high _ _ _ hlv]
        split
        all_goals rw [doubleClickTimeoutStep_noWait]
        · rcases Bool.eq_false_or_eq_true
            (processEncoder s i).ultraLongPressPending with hup | hup <;>
            simp [pendingCount, v5, v6, v7, h9, hup]
        · simp [v4]
        · rcases Bool.eq_false_or_eq_true
            (processEncoder s i).ultraLongPressPending with hup | hup <;>
            simp [pendingCount, v5, v6, v7, h9, hup]
        · simp [v4]
      · have hnt' : (processEncoder s i).ultraLongPressNotified = false := by
          simpa using hnt
        have e1 : classifyRelease c
            { processEncoder s i with
              pressStartTime := t1
              lastPressDuration := i.time - t1 } (i.time - t1) i.time =
            { processEncoder s i with
              pressStartTime := t1
              lastPressDuration := i.time - t1
              ultraLongPressPending := true
              ultraLongPressNotified := true
              ultraLongPressRaises :=
                (processEncoder s i).ultraLongPressRaises + 1 } :=
          classifyRelease_ultra_raise _ _ _ _ hact' hdu hnt'
        rw [e1, ongoingPressStep_high _ _ _ hlv]
        split
        · rename_i hst
          exact absurd hst.2 (by simp; omega)
        · rw [doubleClickTimeoutStep_noWait]
          · simp [pendingCount, v5, v6, v7, h9]
          · simp [v4]
    · have hup0 : (processEncoder s i).ultraLongPressPending = false := by
        rcases Bool.eq_false_or_eq_true
          (processEncoder s i).ultraLongPressPending with hup | hup
        · exact absurd (Nat.le_trans (v10 hup).2 hmono) hdu
        · exact hup
      by_cases hdl : c.longPressDuration ≤ i.time - t1
      · have e1 : classifyRelease c
            { processEncoder s i with
              pressStartTime := t1
              lastPressDuration := i.time - t1 } (i.time - t1) i.time =
            { processEncoder s i with
              pressStartTime := t1
              lastPressDuration := i.time - t1
              longPressPending := true
              longPressRaises := (processEncoder s i).longPressRaises + 1 } :=
          classifyRelease_long _ _ _ _ hact' hdu hdl
        rw [e1, ongoingPressStep_high _ _ _ hlv]
        split
        all_goals rw [doubleClickTimeoutStep_noWait]
        · simp [pendingCount, v5, v6, v7, h9, hup0]
        · simp [v4]
        · simp [pendingCount, v5, v6, v7, h9, hup0]
        · simp [v4]
      · by_cases hdc : i.time - t1 < c.clickTimeout
        · have e1 : classifyRelease c
              { processEncoder s i with
                pressStartTime := t1
                lastPressDuration := i.time - t1 } (i.time - t1) i.time =
              { processEncoder s i with
                pressStartTime := t1
                lastPressDuration := i.time - t1
                waitingForDoubleClick := true
                lastClickTime := i.time } :=
            classifyRelease_click_wait _ _ _ _ hact' hdu hdl hdc v4
          rw [e1, ongoingPressStep_high _ _ _ hlv]
          split
          all_goals rw [doubleClickTimeoutStep_inWindow]
          · simp [pendingCount, v5, v6, v7, h9, hup0]
          · simp
          · simp [pendingCount, v5, v6, v7, h9, hup0]
          · simp
        · have e1 : classifyRelease c
              { processEncoder s i with
                pressStartTime := t1
                lastPressDuration := i.time - t1 } (i.time - t1) i.time =
              { processEncoder s i with
                pressStartTime := t1
                lastPressDuration := i.time - t1 } :=
            classifyRelease_dead _ _ _ _ hact' hdu hdl hdc
          rw [e1, ongoingPressStep_high _ _ _ hlv]
          split
          all_goals rw [doubleClickTimeoutStep_noWait]
          · simp [pendingCount, v5, v6, v7, h9, hup0]
          · simp [v4]
          · simp [pendingCount, v5, v6, v7, h9, hup0]
          · simp [v4]

/-- C1 amended: pending flags survive across cycles when not consumed, so
the at-most-one bound holds per cycle from a drained starting point.  If a
press/release cycle starts from a quiescent state (all five pendings
consumed, no double-click wait, no press-and-rotate active), its samples
carry nondecreasing clock values, and no rotation delta arrives on the
very tick of the press edge, then at most one of the five gesture pending
flags is set when the cycle's release tick has been processed; rotation
during the hold is allowed and yields the press-and-rotate flag alone. -/
theorem c1_cycle_at_most_one (c : EncoderConfig) (s0 : EMState)
    (first : EncoderInput) (mids : List EncoderInput) (last : EncoderInput)
    (hq : Quiescent s0)
    (hf1 : first.level = LOW) (hf2 : first.pos.tdiv 4 = s0.lastValue)
    (hm : ∀ i ∈ mids, i.level = LOW) (hl : last.level = HIGH)
    (hc : chainFrom first.time (mids ++ [last])) :
    pendingCount (run c s0 (first :: mids ++ [last])) ≤ 1 := by
  have hchain := (chainFrom_append first.time mids [last]).mp hc
  have h1 := holdInv_first c s0 first hq hf1 hf2
  have h2 := holdInv_run c first.time mids (update c s0 first) first.time h1
    hchain.1 hm
  have hsplit : run c s0 (first :: mids ++ [last]) =
      update c (run c (update c s0 first) mids) last := by
    show run c s0 ((first :: mids) ++ [last]) = _
    rw [run, List.foldl_append]
    rfl
  rw [hsplit]
  exact holdInv_release c last h2 hchain.2.1 hl

/-- C1 witness: the 0/3000/3100 ms ultra-long hold leaves exactly the
ultra-long-press flag pending after its cycle completes. -/
theorem c1_witness :
    pendingCount (run defaultConfig initState
      (ultraHoldFirst :: ultraHoldMids ++ [ultraHoldLast])) ≤ 1 :=
  c1_cycle_at_most_one defaultConfig initState ultraHoldFirst ultraHoldMids
    ultraHoldLast (by decide) (by decide) (by decide) (by decide)
    (by decide) (by decide)
